import Mathlib

/-!
# Image classifier front-end: a shallow embedding of the client-side state

The JavaScript modules under `src/frontend/js` keep their state in two module
variables (`currentImageFile`, `cameraStream`) and in the document tree.  The
embedding makes that state explicit: every handler becomes a function on
`State`.  The document is a list of `(id, element)` pairs in document order,
so that a lookup by id may fail exactly where `document.getElementById`
returns `null`.
-/

namespace Classifier

/-! ## Data model -/

/-- A `File` object as the handlers observe it: name, MIME type and size in bytes. -/
structure File where
  name : String
  type : String
  size : Nat
  deriving DecidableEq, Repr

/-- One history record as the backend returns it
(`predicted_class`, `confidence`, `image_url`, `created_at`). -/
structure HistoryRecord where
  predicted_class : String
  confidence : Rat
  image_url : String
  created_at : String
  deriving DecidableEq, Repr

/-- The card element `createHistoryCard(item, index)` builds.  Its markup is a
template over `item` and `index`; the card keeps both, together with the class
icon the function computes. -/
structure HistoryCard where
  animationIndex : Nat
  classEmoji : String
  item : HistoryRecord
  deriving DecidableEq, Repr

/-- A toast element appended by `showToast`: its kind, its message, and the
icon and colour looked up in `TOAST_CONFIG` (`none` where the lookup is
`undefined`). -/
structure Toast where
  kind : String
  message : String
  icon : Option String
  color : Option String
  deriving DecidableEq, Repr

/-- The row element `displayProbabilities` builds for one class: its position
(for the animation delay), the icon and class name of its label, the
percentage text (also kept as `data-width`), and the width of its bar. -/
structure ProbabilityRow where
  animationIndex : Nat
  emoji : String
  className : String
  percent : String
  barWidth : String
  deriving DecidableEq, Repr

/-- Child nodes the handlers append to container elements. -/
inductive Node where
  | toast (t : Toast)
  | historyCard (c : HistoryCard)
  | probabilityRow (r : ProbabilityRow)
  deriving DecidableEq, Repr

/-- The attributes of a document element that the handlers read or write. -/
structure Element where
  classList : List String := []
  src : String := ""
  value : String := ""
  srcObject : Option Nat := none
  textContent : String := ""
  styleWidth : String := ""
  children : List Node := []
  deriving DecidableEq, Repr

/-- A media track; `stop()` sets `stopped`. -/
structure MediaStreamTrack where
  stopped : Bool := false
  deriving DecidableEq, Repr

/-- A media stream object granted by `getUserMedia`. -/
structure MediaStream where
  tracks : List MediaStreamTrack
  deriving DecidableEq, Repr

/-- Work scheduled with `setTimeout`. -/
inductive TimerTask where
  | dismissToast (t : Toast)
  | loadHistory
  | setConfidenceBar (width : String)
  | animateProbabilityBar (r : ProbabilityRow)
  deriving DecidableEq, Repr

/-- A pending `setTimeout` call: delay in milliseconds and the task. -/
structure Timer where
  delay : Nat
  task : TimerTask
  deriving DecidableEq, Repr

/-- The whole client state.  `streams` is the heap of stream objects granted so
far (a stream is referred to by its position), `pendingReads` the files a
`FileReader` is still reading, `console` the messages of `console.error`,
`animationListeners` the one-shot `animationend` listeners not yet run (element
id and the class to remove). -/
structure State where
  currentImageFile : Option File := none
  cameraStream : Option Nat := none
  streams : List MediaStream := []
  document : List (String × Element) := []
  bodyOverflow : String := ""
  pendingReads : List File := []
  timers : List Timer := []
  console : List String := []
  animationListeners : List (String × String) := []
  deriving DecidableEq, Repr

/-! ## Document primitives -/

/-- The element `document.getElementById(id)` returns: the first one in document
order carrying that id, `none` for `null`. -/
def getElementById : List (String × Element) → String → Option Element
  | [], _ => none
  | (i, e) :: rest, id => if i = id then some e else getElementById rest id

/-- The document after `const el = document.getElementById(id); if (el) f(el)`. -/
def modifyElement (id : String) (f : Element → Element) :
    List (String × Element) → List (String × Element)
  | [] => []
  | (i, e) :: rest =>
    if i = id then (i, f e) :: rest else (i, e) :: modifyElement id f rest

/-- The effect of `classList.add(c)`: the token list is a set. -/
def Element.addClass (c : String) (e : Element) : Element :=
  { e with classList := if c ∈ e.classList then e.classList else e.classList ++ [c] }

/-- The effect of `classList.remove(c)`. -/
def Element.removeClass (c : String) (e : Element) : Element :=
  { e with classList := e.classList.filter (fun x => x ≠ c) }

/-- The effect of `appendChild(n)`. -/
def Element.appendChild (n : Node) (e : Element) : Element :=
  { e with children := e.children ++ [n] }

/-- An element is shown when it does not carry the class `hidden`. -/
def Element.isHidden (e : Element) : Bool := decide ("hidden" ∈ e.classList)

/-- The element with this id is in the document and not hidden. -/
def isVisible (doc : List (String × Element)) (id : String) : Bool :=
  match getElementById doc id with
  | some e => !e.isHidden
  | none => false

/-- The element with this id is in the document and hidden. -/
def isHidden (doc : List (String × Element)) (id : String) : Bool :=
  match getElementById doc id with
  | some e => e.isHidden
  | none => false

/-- The document has an element with this id. -/
def hasElement (doc : List (String × Element)) (id : String) : Bool :=
  (getElementById doc id).isSome

/-! ## ui.js -/

/-- The table `TOAST_CONFIG.icons`. -/
def toastIcon (kind : String) : Option String :=
  if kind = "success" then some "✅"
  else if kind = "error" then some "❌"
  else if kind = "warning" then some "⚠️"
  else if kind = "info" then some "ℹ️"
  else none

/-- The table `TOAST_CONFIG.colors`. -/
def toastColor (kind : String) : Option String :=
  if kind = "success" then some "bg-green-500"
  else if kind = "error" then some "bg-red-500"
  else if kind = "warning" then some "bg-yellow-500"
  else if kind = "info" then some "bg-blue-500"
  else none

/-- The constant `TOAST_CONFIG.duration`. -/
def toastDuration : Nat := 4000

/-- The toast element `showToast(message, kind)` creates. -/
def mkToast (message kind : String) : Toast :=
  { kind := kind, message := message, icon := toastIcon kind, color := toastColor kind }

/-- The function `showToast(message, type)`: without a toast container it logs
and returns; otherwise it appends the toast and schedules its removal. -/
def showToast (message kind : String) (s : State) : State :=
  match getElementById s.document "toast-container" with
  | none => { s with console := s.console ++ ["Toast container not found"] }
  | some _ =>
    { s with
      document :=
        modifyElement "toast-container" (Element.appendChild (Node.toast (mkToast message kind)))
          s.document
      timers := s.timers ++ [{ delay := toastDuration, task := .dismissToast (mkToast message kind) }] }

/-- The function `showLoading(elementId)`. -/
def showLoading (elementId : String) (s : State) : State :=
  { s with document := modifyElement elementId (Element.removeClass "hidden") s.document }

/-- The function `hideLoading(elementId)`. -/
def hideLoading (elementId : String) (s : State) : State :=
  { s with document := modifyElement elementId (Element.addClass "hidden") s.document }

/-- The function `toggleElement(elementId, show)`. -/
def toggleElement (elementId : String) (toShow : Bool) (s : State) : State :=
  { s with
    document :=
      modifyElement elementId
        (fun e => if toShow then e.removeClass "hidden" else e.addClass "hidden") s.document }

/-- The function `openModal(modalId)`: only when the modal exists, show it and
lock background scrolling. -/
def openModal (modalId : String) (s : State) : State :=
  match getElementById s.document modalId with
  | none => s
  | some _ =>
    { s with
      document := modifyElement modalId (Element.removeClass "hidden") s.document
      bodyOverflow := "hidden" }

/-- The function `closeModal(modalId)`: only when the modal exists, hide it and
set the body overflow to `auto`. -/
def closeModal (modalId : String) (s : State) : State :=
  match getElementById s.document modalId with
  | none => s
  | some _ =>
    { s with
      document := modifyElement modalId (Element.addClass "hidden") s.document
      bodyOverflow := "auto" }

/-- The attribute selector `[id$="-modal"]`: the id ends with `-modal`. -/
def idEndsWithModal (id : String) : Bool :=
  List.isSuffixOf "-modal".toList id.toList

/-- The effect of `document.querySelectorAll('[id$="-modal"]').forEach(modal =>
modal.classList.add('hidden'))`. -/
def hideAllModals (doc : List (String × Element)) : List (String × Element) :=
  doc.map (fun p => if idEndsWithModal p.1 then (p.1, p.2.addClass "hidden") else p)

/-- The `keydown` listener installed by `initModalKeyboardShortcuts`, run on a
keypress whose `key` is `key`. -/
def onKeydown (key : String) (s : State) : State :=
  if key = "Escape" then
    { s with document := hideAllModals s.document, bodyOverflow := "auto" }
  else s

/-- The function `animateElement(elementId, animationClass)`: the class is
added and a one-shot listener registered that removes it when the animation
ends. -/
def animateElement (elementId animationClass : String) (s : State) : State :=
  match getElementById s.document elementId with
  | none => s
  | some _ =>
    { s with
      document := modifyElement elementId (Element.addClass animationClass) s.document
      animationListeners := s.animationListeners ++ [(elementId, animationClass)] }

/-! ## upload.js -/

/-- The constant `maxSize` of `processFile`: 10 MiB. -/
def maxSize : Nat := 10 * 1024 * 1024

/-- The test `file.type.startsWith('image/')`. -/
def isImageType (file : File) : Bool :=
  List.isPrefixOf "image/".toList file.type.toList

/-- The `onload` handler `displayPreview` gives its `FileReader`; `result` is
the data URL read. -/
def readerOnload (result : String) (s : State) : State :=
  toggleElement "results-content" false
    (toggleElement "results-placeholder" false
      (toggleElement "dropArea" false
        (toggleElement "preview-container" true
          { s with
            document :=
              modifyElement "preview-image" (fun e => { e with src := result }) s.document })))

/-- The `onerror` handler `displayPreview` gives its `FileReader`. -/
def readerOnerror (s : State) : State :=
  showToast "Failed to read image file" "error" s

/-- The function `displayPreview(file)`: it starts an asynchronous read of the
file and returns; the handlers run when the read completes. -/
def displayPreview (file : File) (s : State) : State :=
  { s with pendingReads := s.pendingReads ++ [file] }

/-- Completion of a pending read of `file`: with `some url` the read succeeded
and `onload` runs, with `none` it failed and `onerror` runs.  A file that is not
being read completes nothing. -/
def completeRead (file : File) (outcome : Option String) (s : State) : State :=
  if file ∈ s.pendingReads then
    match outcome with
    | some url => readerOnload url { s with pendingReads := s.pendingReads.erase file }
    | none => readerOnerror { s with pendingReads := s.pendingReads.erase file }
  else s

/-- The function `processFile(file)`; `none` is a missing first entry
(`files[0]` is `undefined`). -/
def processFile (file : Option File) (s : State) : State :=
  match file with
  | none => showToast "No file selected" "warning" s
  | some f =>
    if !isImageType f then showToast "Please select a valid image file" "error" s
    else if f.size > maxSize then showToast "Image size must be less than 10MB" "error" s
    else
      showToast "Image loaded successfully!" "success"
        (displayPreview f { s with currentImageFile := some f })

/-- The function `handleFileSelect(event)`, with `files` for `event.target.files`. -/
def handleFileSelect (files : List File) (s : State) : State :=
  processFile files.head? s

/-- The function `handleDrop(event)`, with `files` for `event.dataTransfer.files`. -/
def handleDrop (files : List File) (s : State) : State :=
  processFile files.head?
    { s with document := modifyElement "dropArea" (Element.removeClass "drag-over") s.document }

/-- The function `clearPreview()`. -/
def clearPreview (s : State) : State :=
  toggleElement "results-content" false
    (toggleElement "results-placeholder" true
      (toggleElement "dropArea" true
        (toggleElement "preview-container" false
          { s with
            currentImageFile := none
            document :=
              modifyElement "preview-image" (fun e => { e with src := "" })
                (modifyElement "fileInput" (fun e => { e with value := "" }) s.document) })))

/-- The function `setImageFile(file)`. -/
def setImageFile (file : File) (s : State) : State :=
  displayPreview file { s with currentImageFile := some file }

/-- The function `getImageFile()`. -/
def getImageFile (s : State) : Option File := s.currentImageFile

/-! ## camera.js -/

/-- The outcome of `navigator.mediaDevices.getUserMedia`: a new stream with that
many live tracks, or a rejection. -/
inductive UserMediaOutcome where
  | granted (tracks : Nat)
  | denied
  deriving DecidableEq, Repr

/-- The effect of `stream.getTracks().forEach(track => track.stop())`. -/
def MediaStream.stopTracks (m : MediaStream) : MediaStream :=
  { tracks := m.tracks.map (fun t => { t with stopped := true }) }

/-- A stream is live while one of its tracks has not been stopped. -/
def MediaStream.isLive (m : MediaStream) : Bool :=
  m.tracks.any (fun t => !t.stopped)

/-- Stop the tracks of the stream object at position `i` of the heap. -/
def stopStreamAt : Nat → List MediaStream → List MediaStream
  | _, [] => []
  | 0, m :: rest => m.stopTracks :: rest
  | i + 1, m :: rest => m :: stopStreamAt i rest

/-- The number of granted streams that are live. -/
def liveStreamCount (s : State) : Nat :=
  (s.streams.filter MediaStream.isLive).length

/-- The function `closeCamera()`. -/
def closeCamera (s : State) : State :=
  closeModal "camera-modal"
    ((fun t : State =>
        { t with
          document :=
            modifyElement "camera-preview" (fun e => { e with srcObject := none }) t.document })
      (match s.cameraStream with
        | some i => { s with streams := stopStreamAt i s.streams, cameraStream := none }
        | none => s))

/-- The first part of `openCamera()`, up to the `await`: the modal is opened and
the stream requested. -/
def openCameraBegin (s : State) : State :=
  openModal "camera-modal" s

/-- The rest of `openCamera()`, run when `getUserMedia` settles. -/
def openCameraResolve (outcome : UserMediaOutcome) (s : State) : State :=
  match outcome with
  | .granted n =>
    showToast "Camera activated!" "success"
      { s with
        streams := s.streams ++ [{ tracks := List.replicate n { stopped := false } }]
        cameraStream := some s.streams.length
        document :=
          modifyElement "camera-preview"
            (fun e => { e with srcObject := some s.streams.length }) s.document }
  | .denied =>
    closeCamera
      ((fun t : State => { t with console := t.console ++ ["Camera error:"] })
        (showToast "Failed to access camera" "error" s))

/-- The function `openCamera()` when nothing else runs while the stream request
is pending. -/
def openCamera (outcome : UserMediaOutcome) (s : State) : State :=
  openCameraResolve outcome (openCameraBegin s)

/-- The text `new Date().toISOString().replace(/[:.]/g, '-')` for the ISO
string `iso`. -/
def timestampText (iso : String) : String :=
  String.mk (iso.toList.map (fun c => if c = ':' ∨ c = '.' then '-' else c))

/-- The function `capturePhoto()`: `blob` is what `canvas.toBlob` delivers (the
size of the encoded JPEG, `none` for `null`), `iso` the current time.  The
result is the file the promise resolves with or the message of the error it
rejects with. -/
def capturePhoto (blob : Option Nat) (iso : String) (s : State) : Except String File × State :=
  if hasElement s.document "camera-preview" && hasElement s.document "camera-canvas" then
    match blob with
    | some size =>
      (.ok { name := "camera_" ++ timestampText iso ++ ".jpg", type := "image/jpeg", size := size },
        showToast "Photo captured!" "success" s)
    | none => (.error "Failed to capture photo", s)
  else (.error "Camera elements not found", s)

/-! ## api.js -/

/-- A parsed JSON value. -/
inductive Json where
  | null
  | bool (b : Bool)
  | num (q : Rat)
  | str (s : String)
  | arr (items : List Json)
  | obj (fields : List (String × Json))

/-- An exception: `error v` is the object `new Error(v)`, whose message is the
string conversion of `v` (for a string, the string itself); `typeError` and
`syntaxError` are the built-in errors of a property read on `null` and of a
body that is not JSON; `network` is a rejected `fetch`. -/
inductive JsError where
  | error (message : Json)
  | typeError
  | syntaxError
  | network

/-- The response of `fetch`: the status code and the body as `response.json()`
parses it (`none` when it is not JSON). -/
structure Response where
  status : Nat
  body : Option Json

/-- The property `response.ok`: the status is in the range 200-299. -/
def Response.ok (r : Response) : Bool := decide (200 ≤ r.status ∧ r.status ≤ 299)

/-- The first value stored under `key`. -/
def lookupField (key : String) : List (String × Json) → Option Json
  | [] => none
  | (k, v) :: rest => if k = key then some v else lookupField key rest

/-- The property read `data.key`, for the keys this program reads (none of them
a built-in property): `none` is `undefined`, and reading from `null` throws. -/
def getProp (data : Json) (key : String) : Except JsError (Option Json) :=
  match data with
  | .null => .error .typeError
  | .obj fields => .ok (lookupField key fields)
  | _ => .ok none

/-- The value of `data.key` for a payload that is not `null`: the member of an
object, `undefined` (`none`) for an array, a string, a number or a boolean. -/
def fieldOf (data : Json) (key : String) : Option Json :=
  match data with
  | .obj fields => lookupField key fields
  | _ => none

/-- The truthiness of a value read from parsed JSON (`none` is `undefined`). -/
def truthy : Option Json → Bool
  | none => false
  | some .null => false
  | some (.bool b) => b
  | some (.num q) => decide (q ≠ 0)
  | some (.str s) => decide (s ≠ "")
  | some (.arr _) => true
  | some (.obj _) => true

/-- The function `classifyImage(imageFile)`, given how the `fetch` settles. -/
def classifyImage (_imageFile : File) (fetched : Except JsError Response) : Except JsError Json :=
  match fetched with
  | .error e => .error e
  | .ok response =>
    if !response.ok then
      .error (.error (.str ("HTTP error! status: " ++ toString response.status)))
    else
      match response.body with
      | none => .error .syntaxError
      | some data =>
        match getProp data "success" with
        | .error e => .error e
        | .ok success =>
          if !truthy success then
            match getProp data "error" with
            | .error e => .error e
            | .ok (some v) =>
              if truthy (some v) then .error (.error v)
              else .error (.error (.str "Classification failed"))
            | .ok none => .error (.error (.str "Classification failed"))
          else .ok data

/-- The function `fetchHistory()`, given how the `fetch` settles:
`data.predictions || data.history || []`. -/
def fetchHistory (fetched : Except JsError Response) : Except JsError Json :=
  match fetched with
  | .error e => .error e
  | .ok response =>
    if !response.ok then
      .error (.error (.str ("HTTP error! status: " ++ toString response.status)))
    else
      match response.body with
      | none => .error .syntaxError
      | some data =>
        match getProp data "predictions" with
        | .error e => .error e
        | .ok (some p) =>
          if truthy (some p) then .ok p
          else
            match getProp data "history" with
            | .error e => .error e
            | .ok (some h) => if truthy (some h) then .ok h else .ok (.arr [])
            | .ok none => .ok (.arr [])
        | .ok none =>
          match getProp data "history" with
          | .error e => .error e
          | .ok (some h) => if truthy (some h) then .ok h else .ok (.arr [])
          | .ok none => .ok (.arr [])

/-! ## history.js -/

/-- The conversion `toLowerCase()`.  It folds the ASCII letters only; no other
character lowers to a letter of `robot`, the one string it is compared with. -/
def toLowerCase (s : String) : String :=
  String.mk (s.toList.map Char.toLower)

/-- The function `createHistoryCard(item, index)`. -/
def createHistoryCard (item : HistoryRecord) (index : Nat) : HistoryCard :=
  { animationIndex := index
    classEmoji := if toLowerCase item.predicted_class = "robot" then "🤖" else "👤"
    item := item }

/-- The loop `items.forEach((item, index) => container.appendChild(
createHistoryCard(item, index)))`, with `index` the position of the first item. -/
def appendCards (index : Nat) :
    List HistoryRecord → List (String × Element) → List (String × Element)
  | [], doc => doc
  | item :: rest, doc =>
    appendCards (index + 1) rest
      (modifyElement "history-container"
        (Element.appendChild (Node.historyCard (createHistoryCard item index))) doc)

/-- The function `displayHistory(history)`. -/
def displayHistory (history : List HistoryRecord) (s : State) : State :=
  if hasElement s.document "history-container" && hasElement s.document "history-placeholder" then
    if history.length > 0 then
      { s with
        document :=
          appendCards 0 (history.take 12)
            (modifyElement "history-container" (fun e => { e with children := [] })
              (modifyElement "history-container" (Element.removeClass "hidden")
                (modifyElement "history-placeholder" (Element.addClass "hidden") s.document))) }
    else
      { s with
        document :=
          modifyElement "history-container" (fun e => { e with children := [] })
            (modifyElement "history-container" (Element.addClass "hidden")
              (modifyElement "history-placeholder" (Element.removeClass "hidden") s.document)) }
  else s

/-- The cards shown in the history container, in document order. -/
def historyCards (s : State) : List Node :=
  match getElementById s.document "history-container" with
  | some e => e.children
  | none => []

/-- The toasts in the toast container, in document order. -/
def toasts (s : State) : List Node :=
  match getElementById s.document "toast-container" with
  | some e => e.children
  | none => []

/-- The function `openImageViewer(imageUrl)`, the click handler of a history card. -/
def openImageViewer (imageUrl : String) (s : State) : State :=
  openModal "image-modal"
    { s with
      document := modifyElement "modal-image" (fun e => { e with src := imageUrl }) s.document }

/-- The function `closeImageViewer()`. -/
def closeImageViewer (s : State) : State :=
  { s with document := modifyElement "image-modal" (Element.addClass "hidden") s.document }

/-! ## Numbers

`results.js` multiplies a probability by 100 and prints it with `toFixed(1)`.
Numbers are IEEE 754 double precision values; they are kept here by their exact
value, and every operation rounds explicitly. -/

/-- A number value: `finite negative m e` is `±m·2^e`. -/
inductive JsNumber where
  | finite (negative : Bool) (mantissa : Nat) (exponent : Int)
  | infinite (negative : Bool)
  | nan
  deriving DecidableEq, Repr

/-- The integer nearest to `a / b`, a tie going to the even one. -/
def roundHalfEven (a b : Nat) : Nat :=
  if 2 * (a % b) < b then a / b
  else if b < 2 * (a % b) then a / b + 1
  else if (a / b) % 2 = 0 then a / b
  else a / b + 1

/-- Binary logarithm by halving, with `fuel` steps at most. -/
def log2Aux : Nat → Nat → Nat
  | 0, _ => 0
  | fuel + 1, n => if n < 2 then 0 else log2Aux fuel (n / 2) + 1

/-- The position of the leading bit of `n`. -/
def log2 (n : Nat) : Nat := log2Aux n n

/-- The integer part of the binary logarithm of `p / q`, for positive `p`, `q`. -/
def floorLog2 (p q : Nat) : Int :=
  if (if log2 q ≤ log2 p then q * 2 ^ (log2 p - log2 q) ≤ p
      else q ≤ p * 2 ^ (log2 q - log2 p)) then
    (log2 p : Int) - (log2 q : Int)
  else (log2 p : Int) - (log2 q : Int) - 1

/-- The double nearest to `±p / q` (round to nearest, ties to even): 53 bits of
mantissa, exponents from -1074 (subnormal numbers) to 971, overflow to infinity. -/
def roundToDouble (negative : Bool) (p q : Nat) : JsNumber :=
  if p = 0 then .finite negative 0 0
  else
    let u : Int := max (floorLog2 p q - 52) (-1074)
    let m : Nat :=
      if 0 ≤ u then roundHalfEven p (q * 2 ^ u.toNat) else roundHalfEven (p * 2 ^ (-u).toNat) q
    if 971 < u then .infinite negative
    else if m < 2 ^ 53 then .finite negative m u
    else if u = 971 then .infinite negative
    else .finite negative (2 ^ 52) (u + 1)

/-- The value of the decimal literal `p / q` in a response, such as `873 / 1000`
for `0.873`. -/
def numberLiteral (p q : Nat) : JsNumber := roundToDouble false p q

/-- The product `x * y`. -/
def JsNumber.mul : JsNumber → JsNumber → JsNumber
  | .finite a m e, .finite b n f =>
    if 0 ≤ e + f then roundToDouble (a != b) (m * n * 2 ^ (e + f).toNat) 1
    else roundToDouble (a != b) (m * n) (2 ^ (-(e + f)).toNat)
  | .finite a m _, .infinite b => if m = 0 then .nan else .infinite (a != b)
  | .infinite a, .finite b n _ => if n = 0 then .nan else .infinite (a != b)
  | .infinite a, .infinite b => .infinite (a != b)
  | .nan, _ => .nan
  | _, .nan => .nan

/-- The number `100`. -/
def hundred : JsNumber := .finite false 100 0

/-- A candidate with `k` significant digits for the shortest decimal that reads
back as `p / q`: of the two `k`-digit decimals around the value, the valid one,
the closer one if both are valid. -/
def decimalCandidate (p q k : Nat) : Option Nat :=
  let t := 10 ^ ((toString (p / q)).length - k)
  let lo := p / (q * t)
  let okLo : Bool := roundToDouble false (lo * t) 1 = roundToDouble false p q
  let okHi : Bool := roundToDouble false ((lo + 1) * t) 1 = roundToDouble false p q
  if okLo && okHi then
    if p - lo * t * q < (lo + 1) * t * q - p then some lo
    else if (lo + 1) * t * q - p < p - lo * t * q then some (lo + 1)
    else if lo % 2 = 0 then some lo
    else some (lo + 1)
  else if okLo then some lo
  else if okHi then some (lo + 1)
  else none

/-- Drop the zeros at the end of a digit string. -/
def stripZeros (cs : List Char) : List Char :=
  (cs.reverse.dropWhile (fun c => c = '0')).reverse

/-- The string conversion of a number `p / q` of at least `10^21`: the shortest
digits that read back as the number, in exponent notation. -/
def exponentialText (p q : Nat) : String :=
  match (List.range 17).findSome?
      (fun i => (decimalCandidate p q (i + 1)).map (fun c => (c, i + 1))) with
  | some (c, k) =>
    String.mk
        ((stripZeros (toString c).toList).take 1 ++
          (if 1 < (stripZeros (toString c).toList).length then
            '.' :: (stripZeros (toString c).toList).drop 1
          else [])) ++
      "e+" ++ toString ((toString (p / q)).length - 1 + ((toString c).length - k))
  | none => toString (p / q)

/-- The tenths nearest to the magnitude `m·2^e`: the integer `n` for which
`n / 10` is closest to it, the larger one of two. -/
def nearestTenths (m : Nat) (e : Int) : Nat :=
  if 0 ≤ e then (20 * (m * 2 ^ e.toNat) + 1) / 2
  else (20 * m + 2 ^ (-e).toNat) / (2 * 2 ^ (-e).toNat)

/-- The method `x.toFixed(1)`: a number that is not finite prints by name, one
of magnitude `10^21` or more in exponent notation, any other as its nearest
tenths with one digit after the point; a negative number keeps its sign. -/
def toFixed1 : JsNumber → String
  | .nan => "NaN"
  | .infinite false => "Infinity"
  | .infinite true => "-Infinity"
  | .finite negative m e =>
    (if negative && m != 0 then "-" else "") ++
      (if 0 ≤ e ∧ 10 ^ 21 ≤ m * 2 ^ e.toNat then exponentialText (m * 2 ^ e.toNat) 1
       else if e < 0 ∧ 10 ^ 21 * 2 ^ (-e).toNat ≤ m then exponentialText m (2 ^ (-e).toNat)
       else toString (nearestTenths m e / 10) ++ "." ++ toString (nearestTenths m e % 10))

/-! ## results.js -/

/-- What the browser supplies and the source does not fix: the upper-case
mapping of the characters outside ASCII, the local rendering of a date
(`new Date(t).toLocaleString()`), and the message text of the built-in errors
and of `new Error(v)` for a `v` that is not a string. -/
structure Engine where
  unicodeUpper : Char → List Char
  toLocaleString : String → String
  errorText : JsError → String

/-- The conversion `toUpperCase()`: ASCII letters are folded, any other character
goes through the mapping of the engine. -/
def toUpperCase (env : Engine) (s : String) : String :=
  String.mk (s.toList.flatMap (fun c => if c.toNat < 128 then [c.toUpper] else env.unicodeUpper c))

/-- A successful classification payload, typed as in the data model:
`all_probabilities` lists the members of the object in the order of the
response text, `timestamp` is `none` when the field is missing. -/
structure ClassificationResult where
  predicted_class : String
  confidence : JsNumber
  all_probabilities : List (String × JsNumber)
  timestamp : Option String

/-- The index a property key stands for, if it is an array index: a decimal
numeral without leading zero, below `2^32 - 1`. -/
def arrayIndex (key : String) : Option Nat :=
  if key.toList ≠ [] ∧ key.toList.all Char.isDigit ∧
      (key.toList.head? ≠ some '0' ∨ key.toList.length = 1) ∧
      key.toList.foldl (fun n c => 10 * n + (c.toNat - 48)) 0 < 4294967295 then
    some (key.toList.foldl (fun n c => 10 * n + (c.toNat - 48)) 0)
  else none

/-- Define the property `key` of an object under construction: a key already
there keeps its place and takes the new value, a new key goes last. -/
def setProperty (key : String) (value : JsNumber) :
    List (String × JsNumber) → List (String × JsNumber)
  | [] => [(key, value)]
  | (k, v) :: rest =>
    if k = key then (k, value) :: rest else (k, v) :: setProperty key value rest

/-- The object `JSON.parse` builds from the members of an object text. -/
def parseObject (members : List (String × JsNumber)) : List (String × JsNumber) :=
  members.foldl (fun o kv => setProperty kv.1 kv.2 o) []

/-- The list `Object.entries(o)` for the object parsed from `members`: the
properties whose key is an array index come first, by ascending index, then
the others in the order they were created. -/
def objectEntries (members : List (String × JsNumber)) : List (String × JsNumber) :=
  ((parseObject members).filter (fun kv => (arrayIndex kv.1).isSome)).insertionSort
      (fun a b => (arrayIndex a.1).getD 0 ≤ (arrayIndex b.1).getD 0) ++
    (parseObject members).filter (fun kv => (arrayIndex kv.1).isNone)

/-- The icon of a class: the first string literal for `robot` in any case, the
second for every other class. -/
def classIcon (className : String) : String :=
  if toLowerCase className = "robot" then "ðŸ¤–" else "ðŸ‘¤"

/-- The row `displayProbabilities` builds for the entry `(className, probability)`
at position `index`. -/
def createProbabilityRow (className : String) (probability : JsNumber) (index : Nat) :
    ProbabilityRow :=
  { animationIndex := index
    emoji := classIcon className
    className := className
    percent := toFixed1 (probability.mul hundred)
    barWidth := "0%" }

/-- The loop of `displayProbabilities` over the entries, `index` being the
position of the first: each row is appended and its bar animation scheduled. -/
def appendRows (index : Nat) : List (String × JsNumber) → State → State
  | [], s => s
  | (className, probability) :: rest, s =>
    appendRows (index + 1) rest
      { s with
        document :=
          modifyElement "probabilities-container"
            (Element.appendChild
              (Node.probabilityRow (createProbabilityRow className probability index)))
            s.document
        timers :=
          s.timers ++
            [{ delay := 100 + index * 100
               task := .animateProbabilityBar (createProbabilityRow className probability index) }] }

/-- The function `displayProbabilities(probabilities)`. -/
def displayProbabilities (probabilities : List (String × JsNumber)) (s : State) : State :=
  if hasElement s.document "probabilities-container" then
    appendRows 0 (objectEntries probabilities)
      { s with
        document :=
          modifyElement "probabilities-container" (fun e => { e with children := [] })
            s.document }
  else s

/-- The function `displayResults(data)`. -/
def displayResults (env : Engine) (data : ClassificationResult) (s : State) : State :=
  let shown :=
    animateElement "results-content" "animate-bounce-in"
      (toggleElement "results-content" true (toggleElement "results-placeholder" false s))
  let labelled : State :=
    { shown with
      document :=
        modifyElement "result-class"
          (fun e =>
            Element.addClass "animate-scale-in"
              { e with
                textContent :=
                  classIcon data.predicted_class ++ " " ++ toUpperCase env data.predicted_class })
          shown.document }
  let scored : State :=
    { labelled with
      document :=
        modifyElement "result-confidence"
          (fun e => { e with textContent := toFixed1 (data.confidence.mul hundred) ++ "%" })
          labelled.document }
  let barred : State :=
    if hasElement scored.document "confidence-bar" then
      { scored with
        timers :=
          scored.timers ++
            [{ delay := 100
               task := .setConfidenceBar (toFixed1 (data.confidence.mul hundred) ++ "%") }] }
    else scored
  let dated : State :=
    match data.timestamp with
    | some t =>
      if t ≠ "" then
        { barred with
          document :=
            modifyElement "result-timestamp"
              (fun e => { e with textContent := env.toLocaleString t }) barred.document }
      else barred
    | none => barred
  displayProbabilities data.all_probabilities dated

/-- The function `hideResults()`. -/
def hideResults (s : State) : State :=
  (fun t : State =>
      { t with
        document :=
          modifyElement "confidence-bar" (fun e => { e with styleWidth := "0%" }) t.document })
    (toggleElement "results-content" false (toggleElement "results-placeholder" true s))

/-! ### `displayResults` on the payload as received

`displayResults` above takes the payload typed as the data model has it.  The
handler in `main.js` passes what `classifyImage` returned, a parsed JSON value
whose fields may be missing or of another type; the reads then convert or
throw, and what was written until then stays. -/

/-- The conversions of values that are not of the expected type, which the
engine performs: a string, array or object to a number (throwing for an object
that cannot be converted), and a value that is not a string to the local text
of the date made from it. -/
structure Conversions where
  coerce : Json → Except JsError JsNumber
  dateText : Json → Except JsError String

/-- The number a JSON numeral stands for: the double nearest to it. -/
def jsonNumber (q : Rat) : JsNumber :=
  roundToDouble (decide (q < 0)) q.num.natAbs q.den

/-- The conversion of a value to a number, as the product `v * 100` performs it:
`undefined` gives `NaN`, `null` and `false` give 0, `true` gives 1. -/
def toNumber (conv : Conversions) : Option Json → Except JsError JsNumber
  | none => .ok .nan
  | some .null => .ok (.finite false 0 0)
  | some (.bool b) => .ok (.finite false (if b then 1 else 0) 0)
  | some (.num q) => .ok (jsonNumber q)
  | some v => conv.coerce v

/-- Number the items of a list from `index`, keys being decimal numerals. -/
def indexedFrom {α : Type} (index : Nat) : List α → List (String × α)
  | [] => []
  | x :: rest => (toString index, x) :: indexedFrom (index + 1) rest

/-- The code units of a string as separate values: a character of the basic
plane is a string of its own, a character beyond it is two halves of a
surrogate pair, each of which converts to `NaN` as `undefined` does. -/
def codeUnits (t : String) : List (Option Json) :=
  t.toList.flatMap
    (fun c => if c.toNat < 65536 then [some (Json.str (String.mk [c]))] else [none, none])

/-- The list `Object.entries(v)`, `none` where it throws (`undefined` and
`null`): the members of an object, index keys first by ascending index; the
items of an array and the code units of a string under their positions; no
entry for a number or a boolean. -/
def entriesOf : Option Json → Option (List (String × Option Json))
  | none => none
  | some .null => none
  | some (.obj fields) =>
    some
      (((fields.filter (fun kv => (arrayIndex kv.1).isSome)).insertionSort
            (fun a b => (arrayIndex a.1).getD 0 ≤ (arrayIndex b.1).getD 0) ++
          fields.filter (fun kv => (arrayIndex kv.1).isNone)).map
        (fun kv => (kv.1, some kv.2)))
  | some (.arr items) => some (indexedFrom 0 (items.map some))
  | some (.str t) => some (indexedFrom 0 (codeUnits t))
  | some (.bool _) => some []
  | some (.num _) => some []

/-- The loop of `displayProbabilities` on entries as received: the value of an
entry is converted before its row is built, and a conversion that throws ends
the loop with the rows appended so far. -/
def appendRowsJson (conv : Conversions) (index : Nat) :
    List (String × Option Json) → State → State × Option JsError
  | [], s => (s, none)
  | (className, value) :: rest, s =>
    match toNumber conv value with
    | .error e => (s, some e)
    | .ok probability =>
      appendRowsJson conv (index + 1) rest
        { s with
          document :=
            modifyElement "probabilities-container"
              (Element.appendChild
                (Node.probabilityRow (createProbabilityRow className probability index)))
              s.document
          timers :=
            s.timers ++
              [{ delay := 100 + index * 100
                 task :=
                   .animateProbabilityBar (createProbabilityRow className probability index) }] }

/-- The function `displayProbabilities(probabilities)` on the value as received:
the state it leaves and the error it throws, if any. -/
def displayProbabilitiesJson (conv : Conversions) (probabilities : Option Json) (s : State) :
    State × Option JsError :=
  if hasElement s.document "probabilities-container" then
    match entriesOf probabilities with
    | none =>
      ({ s with
          document :=
            modifyElement "probabilities-container" (fun e => { e with children := [] })
              s.document },
        some .typeError)
    | some entries =>
      appendRowsJson conv 0 entries
        { s with
          document :=
            modifyElement "probabilities-container" (fun e => { e with children := [] })
              s.document }
  else (s, none)

/-- The function `displayResults(data)` on the payload as received: the state it
leaves and the error it throws, if any.  A `predicted_class` that is not a
string throws at `toLowerCase`, after the panel has been shown. -/
def displayResultsJson (env : Engine) (conv : Conversions) (data : Json) (s : State) :
    State × Option JsError :=
  let shown :=
    animateElement "results-content" "animate-bounce-in"
      (toggleElement "results-content" true (toggleElement "results-placeholder" false s))
  match fieldOf data "predicted_class" with
  | some (.str predictedClass) =>
    let labelled : State :=
      { shown with
        document :=
          modifyElement "result-class"
            (fun e =>
              Element.addClass "animate-scale-in"
                { e with
                  textContent :=
                    classIcon predictedClass ++ " " ++ toUpperCase env predictedClass })
            shown.document }
    match toNumber conv (fieldOf data "confidence") with
    | .error e => (labelled, some e)
    | .ok confidence =>
      let scored : State :=
        { labelled with
          document :=
            modifyElement "result-confidence"
              (fun e => { e with textContent := toFixed1 (confidence.mul hundred) ++ "%" })
              labelled.document }
      let barred : State :=
        if hasElement scored.document "confidence-bar" then
          { scored with
            timers :=
              scored.timers ++
                [{ delay := 100
                   task := .setConfidenceBar (toFixed1 (confidence.mul hundred) ++ "%") }] }
        else scored
      if hasElement barred.document "result-timestamp" && truthy (fieldOf data "timestamp") then
        match
          (match fieldOf data "timestamp" with
            | some (.str t) => Except.ok (env.toLocaleString t)
            | some v => conv.dateText v
            | none => Except.ok "") with
        | .error e => (barred, some e)
        | .ok text =>
          displayProbabilitiesJson conv (fieldOf data "all_probabilities")
            { barred with
              document :=
                modifyElement "result-timestamp" (fun e => { e with textContent := text })
                  barred.document }
      else displayProbabilitiesJson conv (fieldOf data "all_probabilities") barred
  | _ => (shown, some .typeError)

/-- The text content of the element with this id. -/
def textOf (doc : List (String × Element)) (id : String) : Option String :=
  (getElementById doc id).map (fun e => e.textContent)

/-- The rows in the probabilities container, in document order. -/
def probabilityRows (s : State) : List Node :=
  match getElementById s.document "probabilities-container" with
  | some e => e.children
  | none => []

/-! ## main.js -/

/-- The names `ui.js` exports: its eight `export function` declarations.  The
constant `TOAST_TYPES` is declared without `export` and appears only as a
property of the default export. -/
def uiExports : List String :=
  ["showToast", "showLoading", "hideLoading", "toggleElement", "openModal", "closeModal",
    "initModalKeyboardShortcuts", "animateElement"]

/-- The names `main.js` imports from `ui.js`. -/
def mainImportsFromUi : List String :=
  ["showToast", "showLoading", "hideLoading", "toggleElement", "initModalKeyboardShortcuts",
    "TOAST_TYPES"]

/-- Whether `main.js` links: every name it imports from `ui.js` must be one the
module exports.  When it does not link, none of its code runs. -/
def mainLinks : Bool :=
  mainImportsFromUi.all (fun name => decide (name ∈ uiExports))

/-- The table `TOAST_TYPES` of `ui.js`. -/
def toastTypes : List (String × String) :=
  [("SUCCESS", "success"), ("ERROR", "error"), ("WARNING", "warning"), ("INFO", "info")]

/-- The value of the binding `TOAST_TYPES` in `main.js` where the module is run
although the name is not exported: the table if `ui.js` exports it, `undefined`
(`none`) otherwise. -/
def importedToastTypes : Option (List (String × String)) :=
  if "TOAST_TYPES" ∈ uiExports then some toastTypes else none

/-- The read `TOAST_TYPES.key` in `main.js`: it throws when the binding is
`undefined`; a key the table lacks makes `showToast` use its default, `info`. -/
def readToastType (key : String) : Except JsError String :=
  match importedToastTypes with
  | none => .error .typeError
  | some table => .ok ((table.lookup key).getD "info")

/-- The function `handleCapturePhoto()`, given what `capturePhoto` delivers: the
state it leaves and the error its promise rejects with, if any. -/
def handleCapturePhoto (blob : Option Nat) (iso : String) (s : State) :
    State × Option JsError :=
  match capturePhoto blob iso s with
  | (.ok photoFile, t) => (closeCamera (setImageFile photoFile t), none)
  | (.error _, t) =>
    match readToastType "ERROR" with
    | .error e => (t, some e)
    | .ok kind =>
      ((fun u : State => { u with console := u.console ++ ["Capture error:"] })
        (showToast "Failed to capture photo" kind t), none)

/-- The text `error.message`: the string given to `new Error`, or what the
engine says for any other error. -/
def errorMessage (env : Engine) : JsError → String
  | .error (.str m) => m
  | e => env.errorText e

/-- The part of `handleClassify()` before the request, when there is a current
image: the control is hidden, the loading indicator shown, the results hidden. -/
def handleClassifyBegin (s : State) : State :=
  hideResults (showLoading "loading-state" (toggleElement "classify-btn" false s))

/-- The `catch` block of `handleClassify()`: the message is built, then the
toast type read, then the toast shown and the error logged.  A throw in the
block leaves it at once. -/
def handleClassifyCatch (env : Engine) (error : JsError) (s : State) :
    State × Option JsError :=
  match readToastType "ERROR" with
  | .error e => (s, some e)
  | .ok kind =>
    ((fun t : State => { t with console := t.console ++ ["Classification error:"] })
      (showToast ("Classification failed: " ++ errorMessage env error) kind s), none)

/-- The `try` block of `handleClassify()` after the `await`, on the payload
`classifyImage` returned: results, toast type and toast, then the timer.  A
throw at any point goes to the `catch` block with the state reached. -/
def handleClassifyTry (env : Engine) (conv : Conversions) (data : Json) (s : State) :
    State × Option JsError :=
  match displayResultsJson env conv data s with
  | (shown, some e) => handleClassifyCatch env e shown
  | (shown, none) =>
    match readToastType "SUCCESS" with
    | .error e => handleClassifyCatch env e shown
    | .ok kind =>
      ((fun t : State =>
          { t with timers := t.timers ++ [{ delay := 500, task := .loadHistory }] })
        (showToast
          ("Classified as " ++
            (match fieldOf data "predicted_class" with
              | some (.str predictedClass) => predictedClass
              | _ => "") ++ "!")
          kind shown), none)

/-- The part of `handleClassify()` after the `await`, run when `classifyImage`
settles with `outcome`: the `try` or the `catch` block, then the `finally`
block, which runs whether or not an error is still being thrown.  The result
is the state left and the error the handler's promise rejects with, if any. -/
def handleClassifySettle (env : Engine) (conv : Conversions) (outcome : Except JsError Json)
    (s : State) : State × Option JsError :=
  (fun r : State × Option JsError =>
      (hideLoading "loading-state" (toggleElement "classify-btn" true r.1), r.2))
    (match outcome with
      | .ok data => handleClassifyTry env conv data s
      | .error e => handleClassifyCatch env e s)

/-- The function `handleClassify()` when nothing else runs while the request is
pending; `fetched` is how the request of `classifyImage` settles. -/
def handleClassify (env : Engine) (conv : Conversions) (fetched : Except JsError Response)
    (s : State) : State × Option JsError :=
  match getImageFile s with
  | none =>
    match readToastType "WARNING" with
    | .error e => (s, some e)
    | .ok kind => (showToast "Please select an image first" kind s, none)
  | some imageFile =>
    handleClassifySettle env conv (classifyImage imageFile fetched) (handleClassifyBegin s)

/-- The history refreshes waiting in the timer queue. -/
def historyRefreshes (s : State) : List Timer :=
  s.timers.filter (fun t => decide (t.task = .loadHistory))

/-- The ids of the elements `displayResults` writes to. -/
def resultElements : List String :=
  ["results-placeholder", "results-content", "result-class", "result-confidence",
    "confidence-bar", "result-timestamp", "probabilities-container"]

/-! ## Sample data -/

/-- A page with the elements the handlers look up, in its initial layout: the
drop area and the placeholders are shown, the panels and overlays are hidden. -/
def samplePage : List (String × Element) :=
  [("toast-container", {}),
   ("dropArea", {}),
   ("fileInput", {}),
   ("preview-container", { classList := ["hidden"] }),
   ("preview-image", {}),
   ("results-placeholder", {}),
   ("results-content", { classList := ["hidden"] }),
   ("classify-btn", {}),
   ("loading-state", { classList := ["hidden"] }),
   ("camera-modal", { classList := ["hidden"] }),
   ("camera-preview", {}),
   ("camera-canvas", {}),
   ("image-modal", { classList := ["hidden"] }),
   ("modal-image", {}),
   ("history-placeholder", {}),
   ("history-container", { classList := ["hidden"] })]

/-- The state of the sample page before any interaction. -/
def initialState : State := { document := samplePage }

/-- A small PNG image. -/
def samplePng : File := { name := "cat.png", type := "image/png", size := 2048 }

/-- A PDF document. -/
def samplePdf : File := { name := "notes.pdf", type := "application/pdf", size := 2048 }

/-- A PNG image of zero bytes. -/
def emptyPng : File := { name := "empty.png", type := "image/png", size := 0 }

/-- The sample page with `samplePng` as the current image. -/
def stateWithImage : State := { document := samplePage, currentImageFile := some samplePng }

/-- The failure payload of the spec example: `success: false` with an error text. -/
def modelUnavailable : Json :=
  .obj [("success", .bool false), ("error", .str "model unavailable")]

/-- A history payload carrying both keys: an empty `predictions` array and a
`history` array with one entry. -/
def bothKeysPayload : List (String × Json) :=
  [("predictions", .arr []), ("history", .arr [.str "old"])]

/-- The cards for a run of records, the first of them at position `index`. -/
def cardsFrom (index : Nat) : List HistoryRecord → List Node
  | [] => []
  | item :: rest => Node.historyCard (createHistoryCard item index) :: cardsFrom (index + 1) rest

/-- A numbered history record. -/
def sampleRecord (n : Nat) : HistoryRecord :=
  { predicted_class := "Robot", confidence := 1 / 2, image_url := "/uploads/" ++ toString n,
    created_at := "2024-01-01T00:00:00Z" }

/-- Twenty history records, numbered from 0. -/
def twentyRecords : List HistoryRecord := (List.range 20).map sampleRecord

/-- The sample page while the first stream request is pending: `openCamera` has
opened the overlay and no stream is stored yet. -/
def cameraPending : State := openCameraBegin initialState

/-- The sample page with both overlays open and scrolling locked. -/
def bothOverlaysOpen : State :=
  openModal "image-modal" (openModal "camera-modal" initialState)

/-- The sample page after the camera was opened and a stream with one track
granted. -/
def cameraOpen : State := openCamera (.granted 1) initialState

/-- The sample page with the full-size viewer opened from a history card. -/
def viewerOpen : State := openImageViewer "/uploads/0" initialState

/-- The sample page together with the elements of the results panel. -/
def resultsPage : List (String × Element) :=
  samplePage ++
    ([("result-class", {}),
      ("result-confidence", {}),
      ("confidence-bar", {}),
      ("result-timestamp", {}),
      ("probabilities-container", {})] : List (String × Element))

/-- The page with the results panel and `samplePng` as the current image. -/
def readyToClassify : State := { document := resultsPage, currentImageFile := some samplePng }

/-- An engine for the examples: it leaves characters outside ASCII as they
are, prints a date as its ISO text and names every built-in error `Error`. -/
def sampleEngine : Engine :=
  { unicodeUpper := fun c => [c], toLocaleString := fun t => t, errorText := fun _ => "Error" }

/-- The result of the spec example: class `Robot` with confidence 0.873. -/
def sampleResult : ClassificationResult :=
  { predicted_class := "Robot"
    confidence := numberLiteral 873 1000
    all_probabilities := [("Robot", numberLiteral 873 1000), ("Human", numberLiteral 127 1000)]
    timestamp := some "2024-01-01T00:00:00Z" }

/-- Conversions for the examples: a value of another type converts to `NaN` and
has no valid date. -/
def sampleConversions : Conversions :=
  { coerce := fun _ => .ok .nan, dateText := fun _ => .ok "Invalid Date" }

/-- The response body of the spec example, as parsed. -/
def samplePayload : Json :=
  .obj
    [("success", .bool true),
     ("predicted_class", .str "Robot"),
     ("confidence", .num (mkRat 873 1000)),
     ("all_probabilities",
       .obj [("Robot", .num (mkRat 873 1000)), ("Human", .num (mkRat 127 1000))]),
     ("timestamp", .str "2024-01-01T00:00:00Z")]

/-- What `handleClassify` leaves on the page with the results panel and a
current image, when the server answers 200 with the payload of the spec
example. -/
def afterSuccess : State × Option JsError :=
  handleClassify sampleEngine sampleConversions
    (.ok { status := 200, body := some samplePayload }) readyToClassify

/-- What `handleClassify` leaves on the same page when the server answers 500. -/
def afterFailure : State × Option JsError :=
  handleClassify sampleEngine sampleConversions (.ok { status := 500, body := none })
    readyToClassify

/-- A result whose class names are array indices, sent in the order `1`, `0`. -/
def indexedResult : ClassificationResult :=
  { predicted_class := "1"
    confidence := numberLiteral 6 10
    all_probabilities := [("1", numberLiteral 6 10), ("0", numberLiteral 4 10)]
    timestamp := none }

/-- The rows for a run of entries, the first of them at position `index`. -/
def rowsFrom (index : Nat) : List (String × JsNumber) → List Node
  | [] => []
  | (className, probability) :: rest =>
    Node.probabilityRow (createProbabilityRow className probability index) ::
      rowsFrom (index + 1) rest

/-! ## Lemmas on the document primitives -/

theorem getElementById_modifyElement (a b : String) (f : Element → Element)
    (doc : List (String × Element)) :
    getElementById (modifyElement a f doc) b =
      if a = b then (getElementById doc b).map f else getElementById doc b := by
  induction doc with
  | nil => simp [modifyElement, getElementById]
  | cons p rest ih =>
    obtain ⟨i, e⟩ := p
    by_cases hia : i = a
    · by_cases hab : a = b
      · subst hia; subst hab; simp [modifyElement, getElementById]
      · subst hia; simp [modifyElement, getElementById, hab]
    · by_cases hib : i = b
      · have hab : ¬ a = b := fun h => hia (hib.trans h.symm)
        have hba : ¬ b = a := fun h => hab h.symm
        subst hib
        simp [modifyElement, getElementById, hab, hba]
      · simp [modifyElement, getElementById, hia, hib, ih]

theorem getElementById_modifyElement_self (a : String) (f : Element → Element)
    (doc : List (String × Element)) :
    getElementById (modifyElement a f doc) a = (getElementById doc a).map f := by
  simp [getElementById_modifyElement]

theorem getElementById_modifyElement_of_ne (a b : String) (f : Element → Element)
    (doc : List (String × Element)) (h : a ≠ b) :
    getElementById (modifyElement a f doc) b = getElementById doc b := by
  simp [getElementById_modifyElement, h]

theorem hasElement_modifyElement (a b : String) (f : Element → Element)
    (doc : List (String × Element)) :
    hasElement (modifyElement a f doc) b = hasElement doc b := by
  unfold hasElement
  rw [getElementById_modifyElement]
  split <;> simp

theorem isHidden_addClass (e : Element) : (e.addClass "hidden").isHidden = true := by
  unfold Element.isHidden Element.addClass
  by_cases h : "hidden" ∈ e.classList <;> simp [h]

theorem isHidden_removeClass (e : Element) : (e.removeClass "hidden").isHidden = false := by
  simp [Element.isHidden, Element.removeClass]

theorem toasts_showToast (message kind : String) (s : State)
    (h : hasElement s.document "toast-container" = true) :
    toasts (showToast message kind s) = toasts s ++ [Node.toast (mkToast message kind)] := by
  unfold hasElement at h
  obtain ⟨e, he⟩ := Option.isSome_iff_exists.mp h
  simp [toasts, showToast, he, getElementById_modifyElement, Element.appendChild]

theorem showToast_currentImageFile (message kind : String) (s : State) :
    (showToast message kind s).currentImageFile = s.currentImageFile := by
  unfold showToast; split <;> rfl

theorem showToast_pendingReads (message kind : String) (s : State) :
    (showToast message kind s).pendingReads = s.pendingReads := by
  unfold showToast; split <;> rfl

/-! ## Acquisition: validation, replacement and clearing -/

/-- C1: a file whose MIME type does not start with `image/`, or whose size
exceeds 10 MiB, is rejected by `handleFileSelect` and by `handleDrop`: the
handler does nothing but call `showToast` with kind `error`, so the current
image is the one before the call, no read for a preview is started, and where
the page has a toast container the error toast is its new last child. -/
theorem reject_invalid_file (s : State) (f : File) (rest : List File)
    (hbad : isImageType f = false ∨ 10485760 < f.size) :
    (getImageFile (handleFileSelect (f :: rest) s) = getImageFile s ∧
      getImageFile (handleDrop (f :: rest) s) = getImageFile s) ∧
    ((handleFileSelect (f :: rest) s).pendingReads = s.pendingReads ∧
      (handleDrop (f :: rest) s).pendingReads = s.pendingReads) ∧
    (∃ msg,
      handleFileSelect (f :: rest) s = showToast msg "error" s ∧
      handleDrop (f :: rest) s =
        showToast msg "error"
          { s with
            document :=
              modifyElement "dropArea" (Element.removeClass "drag-over") s.document } ∧
      (hasElement s.document "toast-container" = true →
        toasts (handleFileSelect (f :: rest) s) =
            toasts s ++ [Node.toast (mkToast msg "error")] ∧
          toasts (handleDrop (f :: rest) s) =
            toasts s ++ [Node.toast (mkToast msg "error")])) := by
  have key : ∀ t : State, ∃ msg,
      processFile (some f) t = showToast msg "error" t ∧
      (msg = "Please select a valid image file" ∨ msg = "Image size must be less than 10MB") ∧
      (msg = "Please select a valid image file" ↔ isImageType f = false) := by
    intro t
    by_cases hty : isImageType f = true
    · have hsz : f.size > maxSize := by
        rcases hbad with h | h
        · rw [hty] at h; cases h
        · simpa [maxSize] using h
      refine ⟨"Image size must be less than 10MB", ?_, Or.inr rfl, ?_⟩
      · simp [processFile, hty, hsz]
      · simp [hty]
    · have hty2 : isImageType f = false := by simpa using hty
      refine ⟨"Please select a valid image file", ?_, Or.inl rfl, ?_⟩
      · simp [processFile, hty2]
      · simp [hty2]
  obtain ⟨m1, h1, _, hm1⟩ := key s
  obtain ⟨m2, h2, _, hm2⟩ :=
    key { s with
          document := modifyElement "dropArea" (Element.removeClass "drag-over") s.document }
  have hm : m2 = m1 := by
    by_cases hty : isImageType f = false
    · rw [hm1.mpr hty, hm2.mpr hty]
    · rcases ‹m1 = _ ∨ m1 = _› with a | a
      · exact absurd (hm1.mp a) hty
      · rcases ‹m2 = _ ∨ m2 = _› with b | b
        · exact absurd (hm2.mp b) hty
        · rw [a, b]
  subst hm
  have e1 : handleFileSelect (f :: rest) s = showToast m2 "error" s := by
    simpa [handleFileSelect] using h1
  have e2 : handleDrop (f :: rest) s =
      showToast m2 "error"
        { s with
          document := modifyElement "dropArea" (Element.removeClass "drag-over") s.document } := by
    simpa [handleDrop] using h2
  refine ⟨⟨?_, ?_⟩, ⟨?_, ?_⟩, m2, e1, e2, ?_⟩
  · rw [e1]; simp [getImageFile, showToast_currentImageFile]
  · rw [e2]; simp [getImageFile, showToast_currentImageFile]
  · rw [e1]; simp [showToast_pendingReads]
  · rw [e2]; simp [showToast_pendingReads]
  · intro hc
    constructor
    · rw [e1]; exact toasts_showToast _ _ _ hc
    · rw [e2]
      rw [toasts_showToast _ _ _ (by simpa [hasElement_modifyElement] using hc)]
      simp [toasts, getElementById_modifyElement]

/-- Witness for C1: on the sample page a PDF is rejected and the current image stays. -/
theorem reject_invalid_file_witness :
    getImageFile (handleFileSelect [samplePdf] stateWithImage) = some samplePng :=
  (reject_invalid_file stateWithImage samplePdf [] (Or.inl (by decide))).1.1

theorem processFile_accepts (s : State) (f : File)
    (hty : isImageType f = true) (hsz : f.size ≤ 10485760) :
    processFile (some f) s =
      showToast "Image loaded successfully!" "success"
        (displayPreview f { s with currentImageFile := some f }) := by
  have h : ¬ f.size > maxSize := by simpa [maxSize] using hsz
  simp [processFile, hty, h]

/-- C2 fails: a zero-byte file of type `image/png` selected on the sample page
replaces the current image. -/
theorem zero_byte_image_replaces_handle :
    emptyPng.size = 0 ∧
      getImageFile stateWithImage = some samplePng ∧
      getImageFile (handleFileSelect [emptyPng] stateWithImage) = some emptyPng ∧
      getImageFile (handleDrop [emptyPng] stateWithImage) = some emptyPng ∧
      getImageFile (handleFileSelect [emptyPng] stateWithImage) ≠ getImageFile stateWithImage := by
  decide

/-- C2, amended: a zero-byte file whose MIME type does not start with `image/`
leaves the current image as it was, under `handleFileSelect` and under
`handleDrop`; a zero-byte file whose type does start with `image/` passes both
checks and becomes the current image. -/
theorem zero_byte_file (s : State) (f : File) (rest : List File) (hzero : f.size = 0) :
    (isImageType f = false →
      getImageFile (handleFileSelect (f :: rest) s) = getImageFile s ∧
        getImageFile (handleDrop (f :: rest) s) = getImageFile s) ∧
    (isImageType f = true →
      getImageFile (handleFileSelect (f :: rest) s) = some f ∧
        getImageFile (handleDrop (f :: rest) s) = some f) := by
  constructor
  · intro hty
    constructor
    · simp [handleFileSelect, processFile, hty, getImageFile, showToast_currentImageFile]
    · simp [handleDrop, processFile, hty, getImageFile, showToast_currentImageFile]
  · intro hty
    have hsz : f.size ≤ 10485760 := by omega
    constructor
    · simp [handleFileSelect, processFile_accepts _ _ hty hsz, getImageFile,
        showToast_currentImageFile, displayPreview]
    · simp [handleDrop, processFile_accepts _ _ hty hsz, getImageFile,
        showToast_currentImageFile, displayPreview]

/-- Witness for C2, amended: the zero-byte PNG becomes the current image. -/
theorem zero_byte_file_witness :
    getImageFile (handleFileSelect [emptyPng] stateWithImage) = some emptyPng :=
  ((zero_byte_file stateWithImage emptyPng [] (by decide)).2 (by decide)).1

theorem isVisible_toggle_true (id : String) (s : State)
    (h : hasElement s.document id = true) :
    isVisible (toggleElement id true s).document id = true := by
  unfold hasElement at h
  obtain ⟨e, he⟩ := Option.isSome_iff_exists.mp h
  simp [isVisible, toggleElement, getElementById_modifyElement, he, isHidden_removeClass]

theorem isHidden_toggle_false (id : String) (s : State)
    (h : hasElement s.document id = true) :
    isHidden (toggleElement id false s).document id = true := by
  unfold hasElement at h
  obtain ⟨e, he⟩ := Option.isSome_iff_exists.mp h
  simp [isHidden, toggleElement, getElementById_modifyElement, he, isHidden_addClass]

theorem isVisible_toggle_of_ne (a b : String) (v : Bool) (s : State) (h : a ≠ b) :
    isVisible (toggleElement a v s).document b = isVisible s.document b := by
  simp [isVisible, toggleElement, getElementById_modifyElement, h]

theorem isHidden_toggle_of_ne (a b : String) (v : Bool) (s : State) (h : a ≠ b) :
    isHidden (toggleElement a v s).document b = isHidden s.document b := by
  simp [isHidden, toggleElement, getElementById_modifyElement, h]

theorem hasElement_toggle (a b : String) (v : Bool) (s : State) :
    hasElement (toggleElement a v s).document b = hasElement s.document b := by
  simp [toggleElement, hasElement_modifyElement]

/-- C3: an image file of at most 10 MiB (10485760 bytes included) given as the
first entry to `handleFileSelect` or `handleDrop` becomes the current image and
its read for the preview is started; `setImageFile` does the same for every
file.  Whenever a pending read completes successfully, on a page that has the
preview container and the drop area, the preview container is shown and the
drop area hidden. -/
theorem accepted_file_becomes_current (s : State) (f : File) (rest : List File)
    (hty : isImageType f = true) (hsz : f.size ≤ 10485760) :
    (getImageFile (handleFileSelect (f :: rest) s) = some f ∧
      f ∈ (handleFileSelect (f :: rest) s).pendingReads) ∧
    (getImageFile (handleDrop (f :: rest) s) = some f ∧
      f ∈ (handleDrop (f :: rest) s).pendingReads) ∧
    (∀ (g : File) (t : State),
      getImageFile (setImageFile g t) = some g ∧ g ∈ (setImageFile g t).pendingReads) ∧
    (∀ (g : File) (url : String) (t : State), g ∈ t.pendingReads →
      hasElement t.document "preview-container" = true →
      hasElement t.document "dropArea" = true →
      isVisible (completeRead g (some url) t).document "preview-container" = true ∧
        isHidden (completeRead g (some url) t).document "dropArea" = true) := by
  refine ⟨⟨?_, ?_⟩, ⟨?_, ?_⟩, ?_, ?_⟩
  · simp [handleFileSelect, processFile_accepts _ _ hty hsz, getImageFile,
      showToast_currentImageFile, displayPreview]
  · simp [handleFileSelect, processFile_accepts _ _ hty hsz, showToast_pendingReads,
      displayPreview]
  · simp [handleDrop, processFile_accepts _ _ hty hsz, getImageFile,
      showToast_currentImageFile, displayPreview]
  · simp [handleDrop, processFile_accepts _ _ hty hsz, showToast_pendingReads, displayPreview]
  · intro g t
    simp [setImageFile, getImageFile, displayPreview]
  · intro g url t hg hp hd
    have hp2 : hasElement
        ({ t with
            pendingReads := t.pendingReads.erase g
            document :=
              modifyElement "preview-image" (fun e => { e with src := url })
                t.document } : State).document "preview-container" = true := by
      simpa [hasElement_modifyElement] using hp
    have hd2 : hasElement
        (toggleElement "preview-container" true
          ({ t with
            pendingReads := t.pendingReads.erase g
            document :=
              modifyElement "preview-image" (fun e => { e with src := url })
                t.document } : State)).document "dropArea" = true := by
      simpa [hasElement_toggle, hasElement_modifyElement] using hd
    constructor
    · simp only [completeRead, hg, if_true, readerOnload]
      rw [isVisible_toggle_of_ne _ _ _ _ (by decide), isVisible_toggle_of_ne _ _ _ _ (by decide),
        isVisible_toggle_of_ne _ _ _ _ (by decide)]
      exact isVisible_toggle_true _ _ hp2
    · simp only [completeRead, hg, if_true, readerOnload]
      rw [isHidden_toggle_of_ne _ _ _ _ (by decide), isHidden_toggle_of_ne _ _ _ _ (by decide)]
      exact isHidden_toggle_false _ _ hd2

/-- Witness for C3: the sample PNG is accepted on the sample page. -/
theorem accepted_file_becomes_current_witness :
    getImageFile (handleDrop [samplePng] initialState) = some samplePng :=
  (accepted_file_becomes_current initialState samplePng [] (by decide) (by decide)).2.1.1

/-- C4: after `clearPreview` there is no current image, and each of the four
panels the page has is at its baseline: the drop area and the results
placeholder are shown, the preview container and the results content hidden. -/
theorem clearPreview_resets (s : State) :
    getImageFile (clearPreview s) = none ∧
    (hasElement s.document "dropArea" = true →
      isVisible (clearPreview s).document "dropArea" = true) ∧
    (hasElement s.document "preview-container" = true →
      isHidden (clearPreview s).document "preview-container" = true) ∧
    (hasElement s.document "results-placeholder" = true →
      isVisible (clearPreview s).document "results-placeholder" = true) ∧
    (hasElement s.document "results-content" = true →
      isHidden (clearPreview s).document "results-content" = true) := by
  refine ⟨by simp [getImageFile, clearPreview, toggleElement], ?_, ?_, ?_, ?_⟩
  · intro h
    unfold clearPreview
    rw [isVisible_toggle_of_ne _ _ _ _ (by decide), isVisible_toggle_of_ne _ _ _ _ (by decide)]
    apply isVisible_toggle_true
    simpa [hasElement_toggle, hasElement_modifyElement] using h
  · intro h
    unfold clearPreview
    rw [isHidden_toggle_of_ne _ _ _ _ (by decide), isHidden_toggle_of_ne _ _ _ _ (by decide),
      isHidden_toggle_of_ne _ _ _ _ (by decide)]
    apply isHidden_toggle_false
    simpa [hasElement_modifyElement] using h
  · intro h
    unfold clearPreview
    rw [isVisible_toggle_of_ne _ _ _ _ (by decide)]
    apply isVisible_toggle_true
    simpa [hasElement_toggle, hasElement_modifyElement] using h
  · intro h
    unfold clearPreview
    apply isHidden_toggle_false
    simpa [hasElement_toggle, hasElement_modifyElement] using h

/-- Witness for C4: clearing the sample page with an image selected shows the
drop area again. -/
theorem clearPreview_resets_witness :
    isVisible (clearPreview stateWithImage).document "dropArea" = true :=
  (clearPreview_resets stateWithImage).2.1 (by decide)

/-! ## Remote client -/

theorem ok_eq_false_of_not_2xx (response : Response)
    (h : ¬ (200 ≤ response.status ∧ response.status ≤ 299)) : response.ok = false := by
  simp [Response.ok, h]

theorem ok_eq_true_of_2xx (response : Response)
    (h : 200 ≤ response.status ∧ response.status ≤ 299) : response.ok = true := by
  simp [Response.ok, h]

theorem getProp_of_ne_null (data : Json) (key : String) (h : data ≠ .null) :
    getProp data key = .ok (fieldOf data key) := by
  cases data <;> simp_all [getProp, fieldOf]

/-- C5 fails as stated: a response with status 200 whose body is the JSON value
`null` makes `classifyImage` fail with a `TypeError` (the read of `success`),
which is neither the status error, nor an error made with `new Error` from the
payload's message or the generic one, nor a returned payload. -/
theorem classifyImage_null_body :
    classifyImage samplePng (.ok { status := 200, body := some .null }) = .error .typeError ∧
      (∀ v : Json,
        classifyImage samplePng (.ok { status := 200, body := some .null }) ≠
          .error (.error v)) ∧
      (∀ data : Json,
        classifyImage samplePng (.ok { status := 200, body := some .null }) ≠ .ok data) := by
  have h : classifyImage samplePng (.ok { status := 200, body := some .null }) =
      .error .typeError := by
    simp [classifyImage, Response.ok, getProp]
  refine ⟨h, ?_, ?_⟩
  · intro v hv
    rw [h] at hv
    cases hv
  · intro data hd
    rw [h] at hd
    cases hd

/-- C5, amended: how `classifyImage` is decided by the response.  A status
outside 200-299 fails with the message `HTTP error! status: <code>`, whatever
the body.  With a 2xx status, a body that is not JSON fails with the parser's
`SyntaxError` and the body `null` with a `TypeError`.  For every other payload
(an object, or a value without members): if `success` is `false` or absent the
call fails, with the payload's `error` text when that is a non-empty string and
with `Classification failed` when `error` is absent (or the empty string); in
general a falsy `success` fails, with the `error` value when that is truthy and
the generic message otherwise, and a truthy `success` (`true` in particular)
returns the payload itself.  A rejected request fails with its own error. -/
theorem classifyImage_decided (img : File) (response : Response) :
    (¬ (200 ≤ response.status ∧ response.status ≤ 299) →
      classifyImage img (.ok response) =
        .error (.error (.str ("HTTP error! status: " ++ toString response.status)))) ∧
    ((200 ≤ response.status ∧ response.status ≤ 299) →
      (response.body = none → classifyImage img (.ok response) = .error .syntaxError) ∧
      (response.body = some .null → classifyImage img (.ok response) = .error .typeError) ∧
      (∀ data : Json, response.body = some data → data ≠ .null →
        ((fieldOf data "success" = some (.bool false) ∨ fieldOf data "success" = none) →
          (∀ m : String, fieldOf data "error" = some (.str m) → m ≠ "" →
            classifyImage img (.ok response) = .error (.error (.str m))) ∧
          (fieldOf data "error" = none ∨ fieldOf data "error" = some (.str "") →
            classifyImage img (.ok response) =
              .error (.error (.str "Classification failed")))) ∧
        (fieldOf data "success" = some (.bool true) →
          classifyImage img (.ok response) = .ok data) ∧
        (truthy (fieldOf data "success") = true →
          classifyImage img (.ok response) = .ok data) ∧
        (truthy (fieldOf data "success") = false →
          (∀ v : Json, fieldOf data "error" = some v → truthy (some v) = true →
            classifyImage img (.ok response) = .error (.error v)) ∧
          (truthy (fieldOf data "error") = false →
            classifyImage img (.ok response) =
              .error (.error (.str "Classification failed")))))) ∧
    (∀ e : JsError, classifyImage img (.error e) = .error e) := by
  refine ⟨?_, ?_, ?_⟩
  · intro h
    simp [classifyImage, ok_eq_false_of_not_2xx response h]
  · intro h
    have hok := ok_eq_true_of_2xx response h
    refine ⟨?_, ?_, ?_⟩
    · intro hbody
      simp [classifyImage, hok, hbody]
    · intro hbody
      simp [classifyImage, hok, hbody, getProp]
    · intro data hbody hnull
      have hs := getProp_of_ne_null data "success" hnull
      have he := getProp_of_ne_null data "error" hnull
      have htruthy : truthy (fieldOf data "success") = true →
          classifyImage img (.ok response) = .ok data := by
        intro ht
        simp [classifyImage, hok, hbody, hs, ht]
      have hfalsy : truthy (fieldOf data "success") = false →
          (∀ v : Json, fieldOf data "error" = some v → truthy (some v) = true →
            classifyImage img (.ok response) = .error (.error v)) ∧
          (truthy (fieldOf data "error") = false →
            classifyImage img (.ok response) =
              .error (.error (.str "Classification failed"))) := by
        intro hf
        constructor
        · intro v hv htv
          simp [classifyImage, hok, hbody, hs, he, hf, hv, htv]
        · intro hfe
          cases hv : fieldOf data "error" with
          | none => simp [classifyImage, hok, hbody, hs, he, hf, hv]
          | some v =>
            rw [hv] at hfe
            simp [classifyImage, hok, hbody, hs, he, hf, hv, hfe]
      refine ⟨?_, ?_, htruthy, hfalsy⟩
      · intro hsf
        have hf : truthy (fieldOf data "success") = false := by
          rcases hsf with h1 | h1 <;> simp [h1, truthy]
        constructor
        · intro m hm hne
          exact (hfalsy hf).1 (.str m) hm (by simp [truthy, hne])
        · intro hem
          exact (hfalsy hf).2 (by rcases hem with h1 | h1 <;> simp [h1, truthy])
      · intro hst
        exact htruthy (by simp [hst, truthy])
  · intro e
    rfl

/-- Witness for C5, amended: the payload `success: false, error: "model
unavailable"` under status 200 fails with the message `model unavailable`. -/
theorem classifyImage_decided_witness :
    classifyImage samplePng (.ok { status := 200, body := some modelUnavailable }) =
      .error (.error (.str "model unavailable")) :=
  ((((classifyImage_decided samplePng { status := 200, body := some modelUnavailable }).2.1
    (by decide)).2.2 modelUnavailable rfl (by simp [modelUnavailable])).1
      (Or.inl rfl)).1 "model unavailable" rfl (by decide)

/-- C6 fails as stated: a 2xx history response whose body is the JSON value
`null` has neither a `predictions` nor a `history` key, yet `fetchHistory` does
not return the empty sequence: the read of `predictions` throws a `TypeError`. -/
theorem fetchHistory_null_body :
    fieldOf .null "predictions" = none ∧ fieldOf .null "history" = none ∧
      fetchHistory (.ok { status := 200, body := some .null }) = .error .typeError ∧
      fetchHistory (.ok { status := 200, body := some .null }) ≠ .ok (.arr []) := by
  have h : fetchHistory (.ok { status := 200, body := some .null }) = .error .typeError := by
    simp [fetchHistory, Response.ok, getProp]
  refine ⟨rfl, rfl, h, ?_⟩
  intro hd
  rw [h] at hd
  cases hd

/-- C6, amended: for a 2xx history response whose body is JSON and not `null`,
`fetchHistory` returns the `predictions` array when there is one (empty or not,
with or without a `history` field), the `history` array when there is no
`predictions` key, and the empty array when the payload has neither key, as
every payload that is not an object does.  The body `null` fails with a
`TypeError` and a body that is not JSON with the parser's `SyntaxError`. -/
theorem fetchHistory_normalizes (response : Response)
    (hok : 200 ≤ response.status ∧ response.status ≤ 299) :
    (response.body = none → fetchHistory (.ok response) = .error .syntaxError) ∧
    (response.body = some .null → fetchHistory (.ok response) = .error .typeError) ∧
    (∀ data : Json, response.body = some data → data ≠ .null →
      (∀ ps : List Json, fieldOf data "predictions" = some (.arr ps) →
        fetchHistory (.ok response) = .ok (.arr ps)) ∧
      (∀ hs : List Json, fieldOf data "predictions" = none →
        fieldOf data "history" = some (.arr hs) →
        fetchHistory (.ok response) = .ok (.arr hs)) ∧
      (fieldOf data "predictions" = none → fieldOf data "history" = none →
        fetchHistory (.ok response) = .ok (.arr [])) ∧
      ((∀ fields : List (String × Json), data ≠ .obj fields) →
        fetchHistory (.ok response) = .ok (.arr []))) := by
  have hok2 := ok_eq_true_of_2xx response hok
  refine ⟨?_, ?_, ?_⟩
  · intro hbody
    simp [fetchHistory, hok2, hbody]
  · intro hbody
    simp [fetchHistory, hok2, hbody, getProp]
  · intro data hbody hnull
    have hp := getProp_of_ne_null data "predictions" hnull
    have hh := getProp_of_ne_null data "history" hnull
    have hneither : fieldOf data "predictions" = none → fieldOf data "history" = none →
        fetchHistory (.ok response) = .ok (.arr []) := by
      intro h1 h2
      simp [fetchHistory, hok2, hbody, hp, hh, h1, h2]
    refine ⟨?_, ?_, hneither, ?_⟩
    · intro ps h1
      simp [fetchHistory, hok2, hbody, hp, h1, truthy]
    · intro hs h1 h2
      simp [fetchHistory, hok2, hbody, hp, hh, h1, h2, truthy]
    · intro hobj
      have h1 : ∀ key : String, fieldOf data key = none := by
        intro key
        cases data with
        | obj fields => exact absurd rfl (hobj fields)
        | _ => rfl
      exact hneither (h1 _) (h1 _)

/-- Witness for C6, amended: an empty `predictions` array wins over a non-empty
`history`. -/
theorem fetchHistory_normalizes_witness :
    fetchHistory (.ok { status := 200, body := some (.obj bothKeysPayload) }) = .ok (.arr []) :=
  ((fetchHistory_normalizes { status := 200, body := some (.obj bothKeysPayload) }
    (by decide)).2.2 (.obj bothKeysPayload) rfl (by simp)).1 [] rfl

/-! ## History display -/

theorem getElementById_appendCards (items : List HistoryRecord) :
    ∀ (index : Nat) (doc : List (String × Element)),
      getElementById (appendCards index items doc) "history-container" =
        (getElementById doc "history-container").map
          (fun e => { e with children := e.children ++ cardsFrom index items }) := by
  induction items with
  | nil =>
    intro index doc
    cases h : getElementById doc "history-container" <;> simp [appendCards, cardsFrom, h]
  | cons item rest ih =>
    intro index doc
    rw [appendCards, ih, getElementById_modifyElement_self]
    cases h : getElementById doc "history-container" <;>
      simp [cardsFrom, Element.appendChild]

theorem length_cardsFrom (items : List HistoryRecord) :
    ∀ index : Nat, (cardsFrom index items).length = items.length := by
  induction items with
  | nil => intro index; rfl
  | cons item rest ih => intro index; simp [cardsFrom, ih]

theorem getElem?_cardsFrom (items : List HistoryRecord) :
    ∀ (index i : Nat),
      (cardsFrom index items)[i]? =
        items[i]?.map (fun item => Node.historyCard (createHistoryCard item (index + i))) := by
  induction items with
  | nil => intro index i; simp [cardsFrom]
  | cons item rest ih =>
    intro index i
    cases i with
    | zero => simp [cardsFrom]
    | succ j =>
      simp only [cardsFrom, List.getElem?_cons_succ, ih]
      have : index + 1 + j = index + (j + 1) := by omega
      rw [this]

theorem historyCards_displayHistory (s : State) (history : List HistoryRecord)
    (hne : history ≠ [])
    (hc : hasElement s.document "history-container" = true)
    (hp : hasElement s.document "history-placeholder" = true) :
    historyCards (displayHistory history s) = cardsFrom 0 (history.take 12) := by
  have hlen : history.length > 0 := List.length_pos.mpr hne
  unfold hasElement at hc
  obtain ⟨e, he⟩ := Option.isSome_iff_exists.mp hc
  have hc2 : hasElement s.document "history-container" = true := by simp [hasElement, he]
  simp [historyCards, displayHistory, hc2, hp, hlen, getElementById_appendCards,
    getElementById_modifyElement, he]

/-- C7: on a page that has the history container and its placeholder,
`displayHistory` on a non-empty list of `n` records leaves exactly `min n 12`
cards in the container, whatever it held before, and the card at position `i`
is the one `createHistoryCard` builds from the record at position `i` of the
input, with index `i`. -/
theorem displayHistory_first_twelve (s : State) (history : List HistoryRecord)
    (hne : history ≠ [])
    (hc : hasElement s.document "history-container" = true)
    (hp : hasElement s.document "history-placeholder" = true) :
    (historyCards (displayHistory history s)).length = min history.length 12 ∧
    (∀ (i : Nat) (item : HistoryRecord), i < 12 → history[i]? = some item →
      (historyCards (displayHistory history s))[i]? =
        some (Node.historyCard (createHistoryCard item i))) ∧
    (∀ i : Nat, min history.length 12 ≤ i →
      (historyCards (displayHistory history s))[i]? = none) := by
  rw [historyCards_displayHistory s history hne hc hp]
  refine ⟨?_, ?_, ?_⟩
  · simp [length_cardsFrom, Nat.min_comm]
  · intro i item hi hitem
    rw [getElem?_cardsFrom, List.getElem?_take]
    simp [hi, hitem]
  · intro i hi
    apply List.getElem?_eq_none
    simp [length_cardsFrom]
    omega

/-- Witness for C7: twenty records on the sample page give twelve cards. -/
theorem displayHistory_first_twelve_witness :
    (historyCards (displayHistory twentyRecords initialState)).length = 12 :=
  (displayHistory_first_twelve initialState twentyRecords (by decide) (by decide)
    (by decide)).1.trans (by decide)

/-! ## Camera session -/

/-- C8 fails on the code: from the sample page, `openCamera` granted a stream
and then `openCamera` granted a second one, with no `closeCamera` in between,
leaves two live streams.  The slot holds the second stream; the first is no
longer referenced and none of its tracks has been stopped, so it stays live
after `closeCamera`.  The same holds when an Escape keypress hides the overlay
between the two calls. -/
theorem openCamera_twice_two_live_streams :
    liveStreamCount (openCamera (.granted 1) initialState) = 1 ∧
    liveStreamCount (openCamera (.granted 1) (openCamera (.granted 1) initialState)) = 2 ∧
    (openCamera (.granted 1) (openCamera (.granted 1) initialState)).cameraStream = some 1 ∧
    (openCamera (.granted 1) (openCamera (.granted 1) initialState)).streams =
      [{ tracks := [{ stopped := false }] }, { tracks := [{ stopped := false }] }] ∧
    liveStreamCount
      (openCamera (.granted 1)
        (onKeydown "Escape" (openCamera (.granted 1) initialState))) = 2 ∧
    liveStreamCount
      (closeCamera (openCamera (.granted 1) (openCamera (.granted 1) initialState))) = 1 := by
  decide

theorem modifyElement_eq_self_iff (a : String) (f : Element → Element)
    (doc : List (String × Element)) :
    modifyElement a f doc = doc ↔ ∀ e, getElementById doc a = some e → f e = e := by
  induction doc with
  | nil => simp [modifyElement, getElementById]
  | cons p rest ih =>
    obtain ⟨i, e⟩ := p
    by_cases hia : i = a
    · subst hia; simp [modifyElement, getElementById]
    · simp [modifyElement, getElementById, hia, ih]

theorem modifyElement_modifyElement_eq_self_iff (a b : String) (hab : a ≠ b)
    (f g : Element → Element) (doc : List (String × Element)) :
    modifyElement a f (modifyElement b g doc) = doc ↔
      (∀ e, getElementById doc a = some e → f e = e) ∧
        (∀ e, getElementById doc b = some e → g e = e) := by
  induction doc with
  | nil => simp [modifyElement, getElementById]
  | cons p rest ih =>
    obtain ⟨i, e⟩ := p
    by_cases hib : i = b
    · have hia : ¬ i = a := fun h => hab (h.symm.trans hib)
      subst hib
      simp [modifyElement, getElementById, hia, modifyElement_eq_self_iff]
      tauto
    · by_cases hia : i = a
      · subst hia
        simp [modifyElement, getElementById, hib, modifyElement_eq_self_iff]
      · simp [modifyElement, getElementById, hib, hia, ih]

theorem addClass_eq_self_iff (c : String) (e : Element) :
    e.addClass c = e ↔ c ∈ e.classList := by
  constructor
  · intro h
    by_contra hc
    have h2 := congrArg Element.classList h
    simp [Element.addClass, hc] at h2
  · intro h
    cases e
    simp_all [Element.addClass]

theorem unbind_eq_self_iff (e : Element) :
    ({ e with srcObject := none } : Element) = e ↔ e.srcObject = none := by
  constructor
  · intro h
    have h2 := congrArg Element.srcObject h
    simpa using h2.symm
  · intro h
    cases e
    simp_all

/-- C9 fails as stated: while the stream request is pending no stream is open,
the camera overlay is shown and scrolling is locked; `closeCamera` then hides
the overlay and sets the body overflow to `auto`. -/
theorem closeCamera_changes_pending_state :
    cameraPending.cameraStream = none ∧
      isVisible cameraPending.document "camera-modal" = true ∧
      cameraPending.bodyOverflow = "hidden" ∧
      isHidden (closeCamera cameraPending).document "camera-modal" = true ∧
      (closeCamera cameraPending).bodyOverflow = "auto" ∧
      closeCamera cameraPending ≠ cameraPending := by
  decide

theorem closeCamera_eq_of_no_stream (s : State) (h : s.cameraStream = none) :
    closeCamera s =
      closeModal "camera-modal"
        { s with
          document :=
            modifyElement "camera-preview" (fun e => { e with srcObject := none }) s.document } := by
  simp [closeCamera, h]

/-- C9, amended: with no stream open, `closeCamera` (a total function: nothing
is raised) keeps the slot empty and touches no stream; it leaves the whole
state as it was exactly when the preview element is already unbound and the
camera overlay is already hidden with body overflow `auto` (each condition
void where the page lacks the element).  Otherwise it unbinds the preview,
hides the overlay and sets the body overflow to `auto`. -/
theorem closeCamera_without_stream (s : State) (h : s.cameraStream = none) :
    (closeCamera s).cameraStream = none ∧
    (closeCamera s).streams = s.streams ∧
    (closeCamera s = s ↔
      (∀ e, getElementById s.document "camera-preview" = some e → e.srcObject = none) ∧
        (∀ e, getElementById s.document "camera-modal" = some e →
          "hidden" ∈ e.classList ∧ s.bodyOverflow = "auto")) ∧
    (∀ e, getElementById (closeCamera s).document "camera-preview" = some e →
      e.srcObject = none) ∧
    (∀ e, getElementById (closeCamera s).document "camera-modal" = some e →
      "hidden" ∈ e.classList ∧ (closeCamera s).bodyOverflow = "auto") := by
  rw [closeCamera_eq_of_no_stream s h]
  obtain ⟨cif, cs, streams, doc, ov, pr, tm, co, al⟩ := s
  simp only at h
  subst h
  have hne : "camera-preview" ≠ "camera-modal" := by decide
  have hne2 : "camera-modal" ≠ "camera-preview" := by decide
  cases hm : getElementById doc "camera-modal" with
  | none =>
    have hm2 : getElementById
        (modifyElement "camera-preview" (fun e => { e with srcObject := none }) doc)
        "camera-modal" = none := by
      rw [getElementById_modifyElement_of_ne _ _ _ _ hne, hm]
    refine ⟨?_, ?_, ?_, ?_, ?_⟩
    · simp [closeModal, hm2]
    · simp [closeModal, hm2]
    · simp [closeModal, hm2, modifyElement_eq_self_iff, unbind_eq_self_iff]
    · intro e he
      simp only [closeModal, hm2, getElementById_modifyElement_self] at he
      cases hp : getElementById doc "camera-preview" with
      | none => simp [hp] at he
      | some e0 =>
        simp [hp] at he
        rw [← he]
    · intro e he
      simp [closeModal, hm2] at he
  | some m =>
    have hm2 : getElementById
        (modifyElement "camera-preview" (fun e => { e with srcObject := none }) doc)
        "camera-modal" = some m := by
      rw [getElementById_modifyElement_of_ne _ _ _ _ hne, hm]
    refine ⟨?_, ?_, ?_, ?_, ?_⟩
    · simp [closeModal, hm2]
    · simp [closeModal, hm2]
    · simp only [closeModal, hm2, State.mk.injEq, true_and, and_true]
      rw [modifyElement_modifyElement_eq_self_iff _ _ hne2]
      simp only [addClass_eq_self_iff, unbind_eq_self_iff, hm, Option.some.injEq]
      constructor
      · rintro ⟨⟨hcls, hprev⟩, hov⟩
        exact ⟨hprev, fun e he => ⟨hcls e he, hov.symm⟩⟩
      · rintro ⟨hprev, hmod⟩
        exact ⟨⟨fun e he => (hmod e he).1, hprev⟩, (hmod m rfl).2.symm⟩
    · intro e he
      simp only [closeModal, hm2] at he
      rw [getElementById_modifyElement_of_ne _ _ _ _ hne2,
        getElementById_modifyElement_self] at he
      cases hp : getElementById doc "camera-preview" with
      | none => simp [hp] at he
      | some e0 =>
        simp [hp] at he
        rw [← he]
    · intro e he
      simp only [closeModal, hm2] at he ⊢
      rw [getElementById_modifyElement_self, hm2] at he
      simp at he
      refine ⟨?_, trivial⟩
      rw [← he]
      have := isHidden_addClass m
      simpa [Element.isHidden] using this

/-- Witness for C9, amended: once the camera has been closed on the sample
page, closing it again changes nothing. -/
theorem closeCamera_without_stream_witness :
    (closeCamera initialState).cameraStream = none ∧
      closeCamera (closeCamera initialState) = closeCamera initialState :=
  ⟨by decide,
    (closeCamera_without_stream (closeCamera initialState) (by decide)).2.2.1.mpr
      ⟨fun e he => by
          have h : e = ({} : Element) := by
            have h2 : getElementById (closeCamera initialState).document "camera-preview" =
                some ({} : Element) := by decide
            rw [h2] at he
            exact (Option.some.inj he).symm
          rw [h],
        fun e he => by
          have h : e = ({ classList := ["hidden"] } : Element) := by
            have h2 : getElementById (closeCamera initialState).document "camera-modal" =
                some ({ classList := ["hidden"] } : Element) := by decide
            rw [h2] at he
            exact (Option.some.inj he).symm
          rw [h]
          exact ⟨by decide, by decide⟩⟩⟩

/-! ## Escape key -/

theorem getElementById_hideAllModals (id : String) (doc : List (String × Element)) :
    getElementById (hideAllModals doc) id =
      (getElementById doc id).map
        (fun e => if idEndsWithModal id = true then e.addClass "hidden" else e) := by
  induction doc with
  | nil => simp [hideAllModals, getElementById]
  | cons p rest ih =>
    obtain ⟨i, e⟩ := p
    have hd : hideAllModals ((i, e) :: rest) =
        (i, if idEndsWithModal i = true then e.addClass "hidden" else e) ::
          hideAllModals rest := by
      by_cases hm : idEndsWithModal i = true <;> simp [hideAllModals, hm]
    rw [hd]
    by_cases hi : i = id
    · subst hi
      simp [getElementById]
    · simp [getElementById, hi, ih]

theorem mem_hideAllModals_hidden (doc : List (String × Element)) (id : String) (e : Element)
    (hmem : (id, e) ∈ hideAllModals doc) (hid : idEndsWithModal id = true) :
    e.isHidden = true := by
  simp only [hideAllModals, List.mem_map] at hmem
  obtain ⟨⟨i, e0⟩, _, heq⟩ := hmem
  by_cases hm : idEndsWithModal i = true
  · simp only [hm, if_true, Prod.mk.injEq] at heq
    rw [← heq.2]
    exact isHidden_addClass e0
  · simp only [hm, Prod.mk.injEq] at heq
    simp at heq
    rw [heq.1] at hm
    exact absurd hid hm

/-- C10: after an Escape keypress, handled by the listener of
`initModalKeyboardShortcuts`, every element whose id ends in `-modal` is hidden,
in particular the camera overlay and the image overlay where the page has
them, whichever of them were open, and the body overflow is `auto`; a keypress
of any other key leaves the state as it was. -/
theorem escape_closes_all_overlays (s : State) :
    (∀ (id : String) (e : Element), (id, e) ∈ (onKeydown "Escape" s).document →
      idEndsWithModal id = true → e.isHidden = true) ∧
    (hasElement s.document "camera-modal" = true →
      isHidden (onKeydown "Escape" s).document "camera-modal" = true) ∧
    (hasElement s.document "image-modal" = true →
      isHidden (onKeydown "Escape" s).document "image-modal" = true) ∧
    (onKeydown "Escape" s).bodyOverflow = "auto" ∧
    (∀ key : String, key ≠ "Escape" → onKeydown key s = s) := by
  refine ⟨?_, ?_, ?_, ?_, ?_⟩
  · intro id e hmem hid
    have hmem2 : (id, e) ∈ hideAllModals s.document := by simpa [onKeydown] using hmem
    exact mem_hideAllModals_hidden _ _ _ hmem2 hid
  · intro h
    unfold hasElement at h
    obtain ⟨e, he⟩ := Option.isSome_iff_exists.mp h
    have hid : idEndsWithModal "camera-modal" = true := by decide
    simp [onKeydown, isHidden, getElementById_hideAllModals, he, hid, isHidden_addClass]
  · intro h
    unfold hasElement at h
    obtain ⟨e, he⟩ := Option.isSome_iff_exists.mp h
    have hid : idEndsWithModal "image-modal" = true := by decide
    simp [onKeydown, isHidden, getElementById_hideAllModals, he, hid, isHidden_addClass]
  · simp [onKeydown]
  · intro key hkey
    simp [onKeydown, hkey]

/-- Witness for C10: with both overlays open on the sample page, Escape hides
the camera overlay, and the key `a` changes nothing. -/
theorem escape_closes_all_overlays_witness :
    isVisible bothOverlaysOpen.document "camera-modal" = true ∧
      isVisible bothOverlaysOpen.document "image-modal" = true ∧
      isHidden (onKeydown "Escape" bothOverlaysOpen).document "camera-modal" = true ∧
      isHidden (onKeydown "Escape" bothOverlaysOpen).document "image-modal" = true ∧
      onKeydown "a" bothOverlaysOpen = bothOverlaysOpen :=
  ⟨by decide, by decide,
    (escape_closes_all_overlays bothOverlaysOpen).2.1 (by decide),
    (escape_closes_all_overlays bothOverlaysOpen).2.2.1 (by decide),
    (escape_closes_all_overlays bothOverlaysOpen).2.2.2.2 "a" (by decide)⟩

/-! ## Overlays, the camera session and background scrolling -/

/-- C11 fails on the code: from the sample page, `openCamera` granted a stream
and then an Escape keypress leaves the camera overlay hidden while the slot
still holds the stream and its track has not been stopped.  The listener only
hides the overlays; `closeCamera`, which stops the tracks, is not run. -/
theorem escape_leaves_stream_live :
    isVisible cameraOpen.document "camera-modal" = true ∧
    isHidden (onKeydown "Escape" cameraOpen).document "camera-modal" = true ∧
    (onKeydown "Escape" cameraOpen).cameraStream = some 0 ∧
    (onKeydown "Escape" cameraOpen).streams = [{ tracks := [{ stopped := false }] }] ∧
    liveStreamCount (onKeydown "Escape" cameraOpen) = 1 ∧
    liveStreamCount (closeCamera cameraOpen) = 0 := by
  decide

/-- C14 fails on the code: on the sample page, opening the full-size viewer
locks scrolling, and `closeImageViewer` hides the viewer but leaves the body
overflow at `hidden`, with no overlay shown.  Closing the camera overlay
through `closeModal` does set it to `auto`. -/
theorem closeImageViewer_keeps_scroll_locked :
    isVisible viewerOpen.document "image-modal" = true ∧
    viewerOpen.bodyOverflow = "hidden" ∧
    isHidden (closeImageViewer viewerOpen).document "image-modal" = true ∧
    isHidden (closeImageViewer viewerOpen).document "camera-modal" = true ∧
    (closeImageViewer viewerOpen).bodyOverflow = "hidden" ∧
    (closeModal "camera-modal" (openModal "camera-modal" initialState)).bodyOverflow = "auto" := by
  decide

/-! ## Results display -/

theorem animateElement_document (a c : String) (s : State) :
    (animateElement a c s).document = modifyElement a (Element.addClass c) s.document := by
  unfold animateElement
  cases h : getElementById s.document a with
  | none =>
    simp only
    exact ((modifyElement_eq_self_iff a _ s.document).mpr (by simp [h])).symm
  | some e => rfl

theorem animateElement_timers (a c : String) (s : State) :
    (animateElement a c s).timers = s.timers := by
  unfold animateElement
  split <;> rfl

theorem appendRows_getElementById_of_ne (id : String) (h : "probabilities-container" ≠ id)
    (entries : List (String × JsNumber)) :
    ∀ (index : Nat) (s : State),
      getElementById (appendRows index entries s).document id = getElementById s.document id := by
  induction entries with
  | nil => intro index s; rfl
  | cons entry rest ih =>
    intro index s
    obtain ⟨className, probability⟩ := entry
    rw [appendRows, ih]
    simp [getElementById_modifyElement, h]

theorem appendRows_container (entries : List (String × JsNumber)) :
    ∀ (index : Nat) (s : State),
      getElementById (appendRows index entries s).document "probabilities-container" =
        (getElementById s.document "probabilities-container").map
          (fun e => { e with children := e.children ++ rowsFrom index entries }) := by
  induction entries with
  | nil =>
    intro index s
    cases h : getElementById s.document "probabilities-container" <;>
      simp [appendRows, rowsFrom, h]
  | cons entry rest ih =>
    intro index s
    obtain ⟨className, probability⟩ := entry
    rw [appendRows, ih]
    simp only [getElementById_modifyElement_self]
    cases h : getElementById s.document "probabilities-container" <;>
      simp [rowsFrom, Element.appendChild]

theorem historyRefreshes_appendRows (entries : List (String × JsNumber)) :
    ∀ (index : Nat) (s : State),
      historyRefreshes (appendRows index entries s) = historyRefreshes s := by
  induction entries with
  | nil => intro index s; rfl
  | cons entry rest ih =>
    intro index s
    obtain ⟨className, probability⟩ := entry
    rw [appendRows, ih]
    simp [historyRefreshes, List.filter_append]

theorem length_rowsFrom (entries : List (String × JsNumber)) :
    ∀ index : Nat, (rowsFrom index entries).length = entries.length := by
  induction entries with
  | nil => intro index; rfl
  | cons entry rest ih =>
    intro index
    obtain ⟨className, probability⟩ := entry
    simp [rowsFrom, ih]

theorem getElem?_rowsFrom (entries : List (String × JsNumber)) :
    ∀ (index i : Nat),
      (rowsFrom index entries)[i]? =
        entries[i]?.map
          (fun kv => Node.probabilityRow (createProbabilityRow kv.1 kv.2 (index + i))) := by
  induction entries with
  | nil => intro index i; simp [rowsFrom]
  | cons entry rest ih =>
    intro index i
    obtain ⟨className, probability⟩ := entry
    cases i with
    | zero => simp [rowsFrom]
    | succ j =>
      simp only [rowsFrom, List.getElem?_cons_succ, ih]
      have : index + 1 + j = index + (j + 1) := by omega
      rw [this]

theorem displayProbabilities_getElementById_of_ne (id : String)
    (h : "probabilities-container" ≠ id) (members : List (String × JsNumber)) (s : State) :
    getElementById (displayProbabilities members s).document id = getElementById s.document id := by
  unfold displayProbabilities
  split
  · rw [appendRows_getElementById_of_ne id h]
    simp [getElementById_modifyElement, h]
  · rfl

theorem displayProbabilities_rows (members : List (String × JsNumber)) (s : State)
    (h : hasElement s.document "probabilities-container" = true) :
    probabilityRows (displayProbabilities members s) = rowsFrom 0 (objectEntries members) := by
  have h2 := h
  unfold hasElement at h2
  obtain ⟨e, he⟩ := Option.isSome_iff_exists.mp h2
  simp [probabilityRows, displayProbabilities, h, appendRows_container,
    getElementById_modifyElement, he]

theorem historyRefreshes_displayProbabilities (members : List (String × JsNumber)) (s : State) :
    historyRefreshes (displayProbabilities members s) = historyRefreshes s := by
  unfold displayProbabilities
  split
  · rw [historyRefreshes_appendRows]; rfl
  · rfl

theorem displayResults_getElementById_of_not_result (env : Engine) (data : ClassificationResult)
    (s : State) (id : String) (h : id ∉ resultElements) :
    getElementById (displayResults env data s).document id = getElementById s.document id := by
  simp only [resultElements, List.mem_cons, List.mem_singleton, not_or, List.mem_nil_iff,
    or_false] at h
  obtain ⟨h1, h2, h3, h4, _, h6, h7⟩ := h
  have k1 : ¬ "results-placeholder" = id := fun e => h1 e.symm
  have k2 : ¬ "results-content" = id := fun e => h2 e.symm
  have k3 : ¬ "result-class" = id := fun e => h3 e.symm
  have k4 : ¬ "result-confidence" = id := fun e => h4 e.symm
  have k6 : ¬ "result-timestamp" = id := fun e => h6 e.symm
  have k7 : "probabilities-container" ≠ id := fun e => h7 e.symm
  unfold displayResults
  simp only []
  rw [displayProbabilities_getElementById_of_ne id k7]
  cases ht : data.timestamp with
  | none =>
    simp only []
    split <;>
      simp [getElementById_modifyElement, animateElement_document, toggleElement, k1, k2, k3, k4]
  | some t =>
    simp only []
    split <;> split <;>
      simp [getElementById_modifyElement, animateElement_document, toggleElement, k1, k2, k3,
        k4, k6]

theorem setProperty_of_not_mem (key : String) (value : JsNumber)
    (o : List (String × JsNumber)) (h : key ∉ o.map Prod.fst) :
    setProperty key value o = o ++ [(key, value)] := by
  induction o with
  | nil => rfl
  | cons kv rest ih =>
    obtain ⟨k, v⟩ := kv
    simp only [List.map_cons, List.mem_cons, not_or] at h
    have hk : ¬ k = key := fun e => h.1 e.symm
    simp [setProperty, hk, ih h.2]

theorem foldl_setProperty_of_nodup (members : List (String × JsNumber)) :
    ∀ o : List (String × JsNumber), (o ++ members).map Prod.fst |>.Nodup →
      members.foldl (fun o kv => setProperty kv.1 kv.2 o) o = o ++ members := by
  induction members with
  | nil => intro o _; simp
  | cons kv rest ih =>
    intro o h
    have hnot : kv.1 ∉ o.map Prod.fst := by
      intro hmem
      rw [List.map_append, List.nodup_append] at h
      exact h.2.2 hmem (by simp)
    have h2 : ((o ++ [(kv.1, kv.2)]) ++ rest).map Prod.fst |>.Nodup := by
      simpa using h
    rw [List.foldl_cons, setProperty_of_not_mem _ _ _ hnot, ih _ h2]
    simp

theorem parseObject_of_nodup (members : List (String × JsNumber))
    (h : (members.map Prod.fst).Nodup) : parseObject members = members := by
  have := foldl_setProperty_of_nodup members [] (by simpa using h)
  simpa [parseObject] using this

theorem objectEntries_of_no_index (members : List (String × JsNumber))
    (hnodup : (members.map Prod.fst).Nodup)
    (hkeys : ∀ kv ∈ members, arrayIndex kv.1 = none) :
    objectEntries members = members := by
  unfold objectEntries
  rw [parseObject_of_nodup members hnodup]
  have h1 : members.filter (fun kv => (arrayIndex kv.1).isSome) = [] := by
    rw [List.filter_eq_nil_iff]
    intro kv hkv
    simp [hkeys kv hkv]
  have h2 : members.filter (fun kv => (arrayIndex kv.1).isNone) = members := by
    rw [List.filter_eq_self]
    intro kv hkv
    simp [hkeys kv hkv]
  rw [h1, h2]
  rfl

theorem displayResults_rows (env : Engine) (data : ClassificationResult) (s : State)
    (h : hasElement s.document "probabilities-container" = true) :
    probabilityRows (displayResults env data s) =
      rowsFrom 0 (objectEntries data.all_probabilities) := by
  unfold displayResults
  simp only []
  apply displayProbabilities_rows
  cases ht : data.timestamp with
  | none =>
    simp only []
    split <;>
      simpa [hasElement_modifyElement, animateElement_document, toggleElement] using h
  | some t =>
    simp only []
    split <;> split <;>
      simpa [hasElement_modifyElement, animateElement_document, toggleElement] using h

theorem displayResults_label (env : Engine) (data : ClassificationResult) (s : State) :
    textOf (displayResults env data s).document "result-class" =
      (getElementById s.document "result-class").map
        (fun _ => classIcon data.predicted_class ++ " " ++ toUpperCase env data.predicted_class) := by
  unfold displayResults textOf
  simp only []
  rw [displayProbabilities_getElementById_of_ne _ (by decide)]
  cases ht : data.timestamp with
  | none =>
    simp only []
    split <;>
      cases he : getElementById s.document "result-class" <;>
      simp [getElementById_modifyElement, animateElement_document, toggleElement, he,
        Element.addClass]
  | some t =>
    simp only []
    split <;> split <;>
      cases he : getElementById s.document "result-class" <;>
      simp [getElementById_modifyElement, animateElement_document, toggleElement, he,
        Element.addClass]

theorem displayResults_confidence (env : Engine) (data : ClassificationResult) (s : State) :
    textOf (displayResults env data s).document "result-confidence" =
      (getElementById s.document "result-confidence").map
        (fun _ => toFixed1 (data.confidence.mul hundred) ++ "%") := by
  unfold displayResults textOf
  simp only []
  rw [displayProbabilities_getElementById_of_ne _ (by decide)]
  cases ht : data.timestamp with
  | none =>
    simp only []
    split <;>
      cases he : getElementById s.document "result-confidence" <;>
      simp [getElementById_modifyElement, animateElement_document, toggleElement, he]
  | some t =>
    simp only []
    split <;> split <;>
      cases he : getElementById s.document "result-confidence" <;>
      simp [getElementById_modifyElement, animateElement_document, toggleElement, he]

theorem nearestTenths_of_nonneg (m : Nat) (e : Int) (h : 0 ≤ e) :
    nearestTenths m e = 10 * (m * 2 ^ e.toNat) := by
  simp only [nearestTenths, h, if_true]
  omega

theorem nearestTenths_of_neg (m : Nat) (e : Int) (h : e < 0) :
    2 * 2 ^ (-e).toNat * nearestTenths m e ≤ 20 * m + 2 ^ (-e).toNat ∧
      20 * m + 2 ^ (-e).toNat < 2 * 2 ^ (-e).toNat * (nearestTenths m e + 1) := by
  have hneg : ¬ 0 ≤ e := by omega
  have hq : 0 < 2 * 2 ^ (-e).toNat := by positivity
  simp only [nearestTenths, hneg, if_false]
  constructor
  · exact Nat.mul_div_le _ _
  · exact Nat.lt_mul_div_succ _ hq

theorem toFixed1_of_small (negative : Bool) (m : Nat) (e : Int)
    (h1 : ¬ (0 ≤ e ∧ 10 ^ 21 ≤ m * 2 ^ e.toNat))
    (h2 : ¬ (e < 0 ∧ 10 ^ 21 * 2 ^ (-e).toNat ≤ m)) :
    toFixed1 (.finite negative m e) =
      (if negative && m != 0 then "-" else "") ++
        (toString (nearestTenths m e / 10) ++ "." ++ toString (nearestTenths m e % 10)) := by
  simp only [toFixed1, h1, h2, if_false]

/-- C13 fails as stated: for a result whose class names are the array indices
`1` and `0`, sent in this order, the rows come out in the order `0`, `1`:
`Object.entries` lists index keys first, by ascending index. -/
theorem probability_rows_not_in_server_order :
    indexedResult.all_probabilities.map Prod.fst = ["1", "0"] ∧
      probabilityRows (displayResults sampleEngine indexedResult readyToClassify) =
        [Node.probabilityRow
            { animationIndex := 0, emoji := "ðŸ‘¤", className := "0", percent := "40.0",
              barWidth := "0%" },
          Node.probabilityRow
            { animationIndex := 1, emoji := "ðŸ‘¤", className := "1", percent := "60.0",
              barWidth := "0%" }] ∧
      probabilityRows (displayResults sampleEngine indexedResult readyToClassify) ≠
        rowsFrom 0 indexedResult.all_probabilities := by
  decide

/-- C13, amended: on a page that has the label, the confidence text and the
probabilities container, `displayResults` sets the label to the class icon
(chosen by comparing the lower-cased class with `robot`), a space and the class
in upper case; sets the confidence text to `(confidence * 100).toFixed(1)`
followed by `%`; and leaves exactly one row per entry of
`Object.entries(all_probabilities)`, in that order, row `i` showing the class
name and `(probability * 100).toFixed(1)` of entry `i`.  That order is the
order of the response when the class names are distinct and none is an array
index; index names come first, by ascending index.  `toFixed(1)` of a finite
number below `10^21` prints its nearest tenths.  For the result with class
`Robot`, confidence 0.873 and probabilities 0.873 and 0.127 the label ends in
`ROBOT`, the confidence text is `87.3%`, and the two rows show 87.3 and 12.7,
which add up to 100.0. -/
theorem displayResults_renders (env : Engine) (data : ClassificationResult) (s : State)
    (hlabel : hasElement s.document "result-class" = true)
    (hconf : hasElement s.document "result-confidence" = true)
    (hrows : hasElement s.document "probabilities-container" = true) :
    textOf (displayResults env data s).document "result-class" =
      some ((if toLowerCase data.predicted_class = "robot" then "ðŸ¤–" else "ðŸ‘¤") ++ " " ++
        toUpperCase env data.predicted_class) ∧
    textOf (displayResults env data s).document "result-confidence" =
      some (toFixed1 (data.confidence.mul hundred) ++ "%") ∧
    (probabilityRows (displayResults env data s)).length =
      (objectEntries data.all_probabilities).length ∧
    (∀ (i : Nat) (className : String) (probability : JsNumber),
      (objectEntries data.all_probabilities)[i]? = some (className, probability) →
      (probabilityRows (displayResults env data s))[i]? =
        some (Node.probabilityRow
          { animationIndex := i
            emoji := if toLowerCase className = "robot" then "ðŸ¤–" else "ðŸ‘¤"
            className := className
            percent := toFixed1 (probability.mul hundred)
            barWidth := "0%" })) ∧
    ((data.all_probabilities.map Prod.fst).Nodup →
      (∀ kv ∈ data.all_probabilities, arrayIndex kv.1 = none) →
      objectEntries data.all_probabilities = data.all_probabilities) ∧
    (∀ (negative : Bool) (m : Nat) (e : Int),
      ¬ (0 ≤ e ∧ 10 ^ 21 ≤ m * 2 ^ e.toNat) → ¬ (e < 0 ∧ 10 ^ 21 * 2 ^ (-e).toNat ≤ m) →
      toFixed1 (.finite negative m e) =
          (if negative && m != 0 then "-" else "") ++
            (toString (nearestTenths m e / 10) ++ "." ++ toString (nearestTenths m e % 10)) ∧
        (0 ≤ e → nearestTenths m e = 10 * (m * 2 ^ e.toNat)) ∧
        (e < 0 →
          2 * 2 ^ (-e).toNat * nearestTenths m e ≤ 20 * m + 2 ^ (-e).toNat ∧
            20 * m + 2 ^ (-e).toNat < 2 * 2 ^ (-e).toNat * (nearestTenths m e + 1))) ∧
    (textOf (displayResults env sampleResult readyToClassify).document "result-class" =
        some "ðŸ¤– ROBOT" ∧
      textOf (displayResults env sampleResult readyToClassify).document "result-confidence" =
        some "87.3%" ∧
      probabilityRows (displayResults env sampleResult readyToClassify) =
        [Node.probabilityRow
            { animationIndex := 0, emoji := "ðŸ¤–", className := "Robot", percent := "87.3",
              barWidth := "0%" },
          Node.probabilityRow
            { animationIndex := 1, emoji := "ðŸ‘¤", className := "Human", percent := "12.7",
              barWidth := "0%" }] ∧
      (numberLiteral 873 1000).mul hundred = .finite false 6143191366710067 (-46) ∧
      (numberLiteral 127 1000).mul hundred = .finite false 7149464408450662 (-49) ∧
      nearestTenths 6143191366710067 (-46) + nearestTenths 7149464408450662 (-49) = 1000) := by
  have hl := hlabel
  have hc := hconf
  unfold hasElement at hl hc
  obtain ⟨el, hel⟩ := Option.isSome_iff_exists.mp hl
  obtain ⟨ec, hec⟩ := Option.isSome_iff_exists.mp hc
  refine ⟨?_, ?_, ?_, ?_, ?_, ?_, ?_, ?_, ?_, ?_, ?_, ?_⟩
  · rw [displayResults_label, hel]; rfl
  · rw [displayResults_confidence, hec]; rfl
  · rw [displayResults_rows env data s hrows, length_rowsFrom]
  · intro i className probability hi
    rw [displayResults_rows env data s hrows, getElem?_rowsFrom, hi]
    simp [createProbabilityRow, classIcon]
  · exact objectEntries_of_no_index data.all_probabilities
  · intro negative m e h1 h2
    exact ⟨toFixed1_of_small negative m e h1 h2, nearestTenths_of_nonneg m e,
      nearestTenths_of_neg m e⟩
  · rw [displayResults_label]
    have : getElementById readyToClassify.document "result-class" = some {} := by decide
    rw [this]
    rfl
  · rw [displayResults_confidence]
    have : getElementById readyToClassify.document "result-confidence" = some {} := by decide
    rw [this]
    have h : toFixed1 (sampleResult.confidence.mul hundred) ++ "%" = "87.3%" := by decide
    simp [h]
  · rw [displayResults_rows env sampleResult readyToClassify (by decide)]
    decide
  · decide
  · decide
  · decide

/-- Witness for C13, amended: the spec example on the page with the results
panel, under the sample engine. -/
theorem displayResults_renders_witness :
    textOf (displayResults sampleEngine sampleResult readyToClassify).document
        "result-confidence" = some "87.3%" ∧
      (probabilityRows (displayResults sampleEngine sampleResult readyToClassify)).length = 2 :=
  ⟨(displayResults_renders sampleEngine sampleResult readyToClassify (by decide) (by decide)
      (by decide)).2.1.trans (by decide),
    (displayResults_renders sampleEngine sampleResult readyToClassify (by decide) (by decide)
      (by decide)).2.2.1.trans (by decide)⟩

/-! ## Classification flow -/

theorem showToast_getElementById_of_ne (message kind : String) (s : State) (id : String)
    (h : "toast-container" ≠ id) :
    getElementById (showToast message kind s).document id = getElementById s.document id := by
  unfold showToast
  split
  · rfl
  · simp [getElementById_modifyElement, h]

theorem hasElement_showToast (message kind : String) (s : State) (id : String) :
    hasElement (showToast message kind s).document id = hasElement s.document id := by
  unfold showToast
  split
  · rfl
  · simp [hasElement_modifyElement]

theorem historyRefreshes_showToast (message kind : String) (s : State) :
    historyRefreshes (showToast message kind s) = historyRefreshes s := by
  unfold showToast
  split
  · rfl
  · simp [historyRefreshes, List.filter_append]

theorem historyRefreshes_displayResults (env : Engine) (data : ClassificationResult)
    (s : State) : historyRefreshes (displayResults env data s) = historyRefreshes s := by
  unfold displayResults
  simp only []
  rw [historyRefreshes_displayProbabilities]
  cases ht : data.timestamp with
  | none =>
    simp only []
    split <;>
      simp [historyRefreshes, List.filter_append, animateElement_timers, toggleElement]
  | some t =>
    simp only []
    split <;> split <;>
      simp [historyRefreshes, List.filter_append, animateElement_timers, toggleElement]

theorem displayResults_content (env : Engine) (data : ClassificationResult) (s : State) :
    getElementById (displayResults env data s).document "results-content" =
      (getElementById s.document "results-content").map
        (fun e => Element.addClass "animate-bounce-in" (Element.removeClass "hidden" e)) := by
  unfold displayResults
  simp only []
  rw [displayProbabilities_getElementById_of_ne _ (by decide)]
  cases ht : data.timestamp with
  | none =>
    simp only []
    split <;>
      cases he : getElementById s.document "results-content" <;>
      simp [getElementById_modifyElement, animateElement_document, toggleElement, he]
  | some t =>
    simp only []
    split <;> split <;>
      cases he : getElementById s.document "results-content" <;>
      simp [getElementById_modifyElement, animateElement_document, toggleElement, he]

theorem displayResults_content_shown (env : Engine) (data : ClassificationResult) (s : State)
    (h : hasElement s.document "results-content" = true) :
    isVisible (displayResults env data s).document "results-content" = true := by
  unfold hasElement at h
  obtain ⟨e, he⟩ := Option.isSome_iff_exists.mp h
  have hcls :
      (Element.addClass "animate-bounce-in" (Element.removeClass "hidden" e)).isHidden = false := by
    unfold Element.isHidden Element.addClass Element.removeClass
    simp only [decide_eq_false_iff_not]
    split <;> simp [List.mem_filter]
  unfold isVisible
  rw [displayResults_content, he]
  simp [hcls]

theorem mem_resultElements_ne (id : String) (h : id ∈ resultElements) :
    "classify-btn" ≠ id ∧ "loading-state" ≠ id ∧ "toast-container" ≠ id := by
  simp only [resultElements, List.mem_cons, List.mem_singleton, List.mem_nil_iff,
    or_false] at h
  rcases h with h | h | h | h | h | h | h <;> subst h <;> decide

theorem hasElement_displayResults (env : Engine) (data : ClassificationResult) (s : State)
    (id : String) (h : id ∉ resultElements) :
    hasElement (displayResults env data s).document id = hasElement s.document id := by
  unfold hasElement
  rw [displayResults_getElementById_of_not_result env data s id h]

theorem toasts_displayResults (env : Engine) (data : ClassificationResult) (s : State) :
    toasts (displayResults env data s) = toasts s := by
  unfold toasts
  rw [displayResults_getElementById_of_not_result env data s "toast-container" (by decide)]

theorem finally_visible (inner : State) (h : hasElement inner.document "classify-btn" = true) :
    isVisible (hideLoading "loading-state" (toggleElement "classify-btn" true inner)).document
      "classify-btn" = true := by
  have h2 := isVisible_toggle_true "classify-btn" inner h
  simpa [hideLoading, isVisible, getElementById_modifyElement] using h2

theorem finally_hidden (inner : State) (h : hasElement inner.document "loading-state" = true) :
    isHidden (hideLoading "loading-state" (toggleElement "classify-btn" true inner)).document
      "loading-state" = true := by
  unfold hasElement at h
  obtain ⟨e, he⟩ := Option.isSome_iff_exists.mp h
  simp [hideLoading, toggleElement, isHidden, getElementById_modifyElement, he,
    isHidden_addClass]

theorem finally_toasts (inner : State) :
    toasts (hideLoading "loading-state" (toggleElement "classify-btn" true inner)) =
      toasts inner := by
  simp [toasts, hideLoading, toggleElement, getElementById_modifyElement]

theorem finally_timers (inner : State) :
    (hideLoading "loading-state" (toggleElement "classify-btn" true inner)).timers =
      inner.timers := rfl

theorem toasts_congr (a b : State) (h : a.document = b.document) : toasts a = toasts b := by
  unfold toasts
  rw [h]

theorem readToastType_throws (key : String) : readToastType key = .error .typeError := rfl

theorem handleClassifyCatch_throws (env : Engine) (error : JsError) (s : State) :
    handleClassifyCatch env error s = (s, some .typeError) := rfl

theorem handleClassifyTry_throws (env : Engine) (conv : Conversions) (data : Json) (s : State) :
    handleClassifyTry env conv data s =
      ((displayResultsJson env conv data s).1, some .typeError) := by
  unfold handleClassifyTry
  split
  · next shown e h => simp [handleClassifyCatch_throws, h]
  · next shown h => simp [readToastType_throws, handleClassifyCatch_throws, h]

theorem appendRowsJson_getElementById_of_ne (conv : Conversions) (id : String)
    (h : "probabilities-container" ≠ id) (entries : List (String × Option Json)) :
    ∀ (index : Nat) (s : State),
      getElementById (appendRowsJson conv index entries s).1.document id =
        getElementById s.document id := by
  induction entries with
  | nil => intro index s; rfl
  | cons entry rest ih =>
    intro index s
    obtain ⟨className, value⟩ := entry
    unfold appendRowsJson
    split
    · rfl
    · rw [ih]
      simp [getElementById_modifyElement, h]

theorem historyRefreshes_appendRowsJson (conv : Conversions)
    (entries : List (String × Option Json)) :
    ∀ (index : Nat) (s : State),
      historyRefreshes (appendRowsJson conv index entries s).1 = historyRefreshes s := by
  induction entries with
  | nil => intro index s; rfl
  | cons entry rest ih =>
    intro index s
    obtain ⟨className, value⟩ := entry
    unfold appendRowsJson
    split
    · rfl
    · rw [ih]
      simp [historyRefreshes, List.filter_append]

theorem displayProbabilitiesJson_getElementById_of_ne (conv : Conversions) (id : String)
    (h : "probabilities-container" ≠ id) (probabilities : Option Json) (s : State) :
    getElementById (displayProbabilitiesJson conv probabilities s).1.document id =
      getElementById s.document id := by
  unfold displayProbabilitiesJson
  split
  · split
    · simp [getElementById_modifyElement, h]
    · rw [appendRowsJson_getElementById_of_ne conv id h]
      simp [getElementById_modifyElement, h]
  · rfl

theorem historyRefreshes_displayProbabilitiesJson (conv : Conversions)
    (probabilities : Option Json) (s : State) :
    historyRefreshes (displayProbabilitiesJson conv probabilities s).1 = historyRefreshes s := by
  unfold displayProbabilitiesJson
  split
  · split
    · rfl
    · rw [historyRefreshes_appendRowsJson]
      rfl
  · rfl

theorem displayResultsJson_toast_container (env : Engine) (conv : Conversions) (data : Json)
    (s : State) :
    getElementById (displayResultsJson env conv data s).1.document "toast-container" =
      getElementById s.document "toast-container" := by
  unfold displayResultsJson
  simp only []
  repeat' split
  all_goals
    (try rw [displayProbabilitiesJson_getElementById_of_ne conv "toast-container" (by decide)])
  all_goals
    simp [getElementById_modifyElement, animateElement_document, toggleElement]

theorem historyRefreshes_displayResultsJson (env : Engine) (conv : Conversions) (data : Json)
    (s : State) :
    historyRefreshes (displayResultsJson env conv data s).1 = historyRefreshes s := by
  unfold displayResultsJson
  simp only []
  repeat' split
  all_goals (try rw [historyRefreshes_displayProbabilitiesJson])
  all_goals
    simp [historyRefreshes, List.filter_append, animateElement_timers, toggleElement]

theorem displayResultsJson_samplePayload :
    (displayResultsJson sampleEngine sampleConversions samplePayload readyToClassify).1 =
      displayResults sampleEngine sampleResult readyToClassify := by
  decide

theorem toasts_handleClassifyBegin (s : State) : toasts (handleClassifyBegin s) = toasts s := by
  simp [toasts, handleClassifyBegin, hideResults, showLoading, toggleElement,
    getElementById_modifyElement]

theorem historyRefreshes_handleClassifyBegin (s : State) :
    historyRefreshes (handleClassifyBegin s) = historyRefreshes s := rfl

theorem handleClassifySettle_throws (env : Engine) (conv : Conversions)
    (outcome : Except JsError Json) (s : State) :
    (handleClassifySettle env conv outcome s).2 = some .typeError ∧
      toasts (handleClassifySettle env conv outcome s).1 = toasts s ∧
      historyRefreshes (handleClassifySettle env conv outcome s).1 = historyRefreshes s := by
  unfold handleClassifySettle
  cases outcome with
  | error e =>
    show (handleClassifyCatch env e s).2 = some .typeError ∧
      toasts (hideLoading "loading-state"
        (toggleElement "classify-btn" true (handleClassifyCatch env e s).1)) = toasts s ∧
      historyRefreshes (hideLoading "loading-state"
        (toggleElement "classify-btn" true (handleClassifyCatch env e s).1)) =
          historyRefreshes s
    rw [handleClassifyCatch_throws]
    exact ⟨rfl, finally_toasts s, rfl⟩
  | ok data =>
    show (handleClassifyTry env conv data s).2 = some .typeError ∧
      toasts (hideLoading "loading-state"
        (toggleElement "classify-btn" true (handleClassifyTry env conv data s).1)) = toasts s ∧
      historyRefreshes (hideLoading "loading-state"
        (toggleElement "classify-btn" true (handleClassifyTry env conv data s).1)) =
          historyRefreshes s
    rw [handleClassifyTry_throws]
    refine ⟨rfl, ?_, ?_⟩
    · rw [finally_toasts]
      unfold toasts
      rw [displayResultsJson_toast_container]
    · have h := historyRefreshes_displayResultsJson env conv data s
      unfold historyRefreshes at h ⊢
      rw [finally_timers]
      exact h

/-- C12 fails on the code.  `main.js` imports `TOAST_TYPES` by name, a name
`ui.js` does not export, so the module does not link.  Where it is run all the
same, with the binding undefined, `handleClassify` ends on every page, with
every answer of the server and with or without a current image in a
`TypeError` (the read of the toast type), appends no toast and schedules no
history refresh.  On the page with the results panel and a current image, the
answer of the spec example renders the results (label, 87.3%) and re-enables
the control, but leaves no success toast and no refresh in the timer queue;
the answer 500 leaves no error toast. -/
theorem handleClassify_never_notifies (env : Engine) (conv : Conversions)
    (fetched : Except JsError Response) (s : State) :
    mainLinks = false ∧
    importedToastTypes = none ∧
    (handleClassify env conv fetched s).2 = some .typeError ∧
    toasts (handleClassify env conv fetched s).1 = toasts s ∧
    historyRefreshes (handleClassify env conv fetched s).1 = historyRefreshes s ∧
    (afterSuccess.2 = some .typeError ∧
      textOf afterSuccess.1.document "result-class" = some "ðŸ¤– ROBOT" ∧
      textOf afterSuccess.1.document "result-confidence" = some "87.3%" ∧
      isVisible afterSuccess.1.document "results-content" = true ∧
      isVisible afterSuccess.1.document "classify-btn" = true ∧
      isHidden afterSuccess.1.document "loading-state" = true ∧
      toasts afterSuccess.1 = [] ∧
      historyRefreshes afterSuccess.1 = [] ∧
      afterSuccess.1.timers.map (fun t => t.delay) = [100, 100, 200]) ∧
    (afterFailure.2 = some .typeError ∧
      toasts afterFailure.1 = [] ∧
      afterFailure.1.timers = [] ∧
      isVisible afterFailure.1.document "classify-btn" = true ∧
      isHidden afterFailure.1.document "loading-state" = true) := by
  refine ⟨by decide, by decide, ?_, ?_, ?_, ?_, ?_⟩
  · unfold handleClassify
    cases getImageFile s with
    | none => rfl
    | some f => exact (handleClassifySettle_throws env conv _ _).1
  · unfold handleClassify
    cases getImageFile s with
    | none => rfl
    | some f =>
      simp only []
      rw [(handleClassifySettle_throws env conv _ _).2.1, toasts_handleClassifyBegin]
  · unfold handleClassify
    cases getImageFile s with
    | none => rfl
    | some f =>
      simp only []
      rw [(handleClassifySettle_throws env conv _ _).2.2, historyRefreshes_handleClassifyBegin]
  · exact ⟨rfl, by decide, by decide, by decide, by decide, by decide, by decide, by decide,
      by decide⟩
  · exact ⟨rfl, by decide, by decide, by decide, by decide⟩

end Classifier
